import Mathlib

/-!
Verification development for the SrikurGBC Game Boy emulator core.

Shallow embedding of the Rust sources under `src/`:
machine integers (`u8`, `u16`, `u32`, `usize`) become `Nat` with explicit
`% 2^w` where the Rust code wraps; `i16` intermediates become `Int`;
`Vec` indexing and code paths that `panic!`/`unreachable!` become
`Option`-valued functions (`none` = panic).  Field and function names follow
the Rust names wherever Lean allows.
-/

set_option maxRecDepth 8192

namespace SGBC

/-! ## Bitwise arithmetic helpers -/

/-! ## `src/system/registers.rs` -/

/-- Rust `FlagsRegister`: Z/N/H/C flag bits of the F register. -/
structure FlagsRegister where
  zero : Bool
  subtract : Bool
  half_carry : Bool
  carry : Bool
  deriving DecidableEq, Repr

/-- Rust `impl From<FlagsRegister> for u8`:
`(z?1:0) << 7 | (n?1:0) << 6 | (h?1:0) << 5 | (c?1:0) << 4`. -/
def flagsToU8 (flag : FlagsRegister) : Nat :=
  ((if flag.zero then 1 else 0) <<< 7)
    ||| ((if flag.subtract then 1 else 0) <<< 6)
    ||| ((if flag.half_carry then 1 else 0) <<< 5)
    ||| ((if flag.carry then 1 else 0) <<< 4)

/-- Rust `impl From<u8> for FlagsRegister`: reads bits 7/6/5/4. -/
def flagsFromU8 (byte : Nat) : FlagsRegister :=
  { zero := (byte >>> 7) &&& 1 ≠ 0
    subtract := (byte >>> 6) &&& 1 ≠ 0
    half_carry := (byte >>> 5) &&& 1 ≠ 0
    carry := (byte >>> 4) &&& 1 ≠ 0 }

/-- Rust `Registers`: the eight 8-bit CPU registers. -/
structure Registers where
  a : Nat
  b : Nat
  c : Nat
  d : Nat
  e : Nat
  f : FlagsRegister
  h : Nat
  l : Nat
  deriving DecidableEq, Repr

def Registers.get_af (r : Registers) : Nat := (r.a <<< 8) ||| flagsToU8 r.f

def Registers.get_bc (r : Registers) : Nat := (r.b <<< 8) ||| r.c

def Registers.get_de (r : Registers) : Nat := (r.d <<< 8) ||| r.e

def Registers.get_hl (r : Registers) : Nat := (r.h <<< 8) ||| r.l

def Registers.set_af (r : Registers) (value : Nat) : Registers :=
  { r with a := (value &&& 0xFF00) >>> 8, f := flagsFromU8 (value &&& 0xFF) }

def Registers.set_bc (r : Registers) (value : Nat) : Registers :=
  { r with b := (value &&& 0xFF00) >>> 8, c := value &&& 0xFF }

def Registers.set_de (r : Registers) (value : Nat) : Registers :=
  { r with d := (value &&& 0xFF00) >>> 8, e := value &&& 0xFF }

def Registers.set_hl (r : Registers) (value : Nat) : Registers :=
  { r with h := (value &&& 0xFF00) >>> 8, l := value &&& 0xFF }

/-! ## `src/system/interrupts.rs` -/

/-- The shared `Interrupt` cell (IE, IF, IME, EI delay latch). -/
structure Interrupt where
  interrupt_enable : Nat
  interrupt_flag : Nat
  interrupt_master_enable : Bool
  interrupt_delay : Bool
  deriving DecidableEq, Repr

/-- Rust `Interrupt::new()`. -/
def Interrupt.new : Interrupt :=
  { interrupt_enable := 0
    interrupt_flag := 0
    interrupt_master_enable := true
    interrupt_delay := false }

inductive Interrupts where
  | VBlank
  | LCDStat
  | Timer
  | Joypad
  deriving DecidableEq, Repr

def interruptMask : Interrupts → Nat
  | .VBlank => 0x01
  | .LCDStat => 0x02
  | .Timer => 0x04
  | .Joypad => 0x10

/-- Rust `Interrupt::set_interrupt`: OR the kind's mask into IF. -/
def Interrupt.set_interrupt (i : Interrupt) (kind : Interrupts) : Interrupt :=
  { i with interrupt_flag := i.interrupt_flag ||| interruptMask kind }

/-! ## `src/system/timer.rs` -/

/-- Rust `Timer` state.  `intf` mirrors the shared `Rc<RefCell<Interrupt>>` cell's
IF register, which `update_timers` mutates through `set_interrupt`. -/
structure Timer where
  intf : Nat
  tima : Nat
  clock_counter : Nat
  divider_register : Nat
  divider_counter : Nat
  tma : Nat
  input_clock_speed : Nat
  clock_enabled : Bool
  deriving DecidableEq, Repr

/-- Rust `Timer::new` (interrupt cell passed separately; IF starts at 0). -/
def Timer.new : Timer :=
  { intf := 0
    tima := 0
    divider_register := 0
    divider_counter := 0
    tma := 0
    clock_counter := 1024
    input_clock_speed := 1024
    clock_enabled := false }

/-- The `while self.divider_counter > 256` loop of `update_timers`:
returns the final `divider_counter` and `divider_register`. -/
def divLoop (d r : Nat) : Nat × Nat :=
  if 256 < d then divLoop (d - 256) ((r + 1) % 256) else (d, r)
termination_by d
decreasing_by omega

/-- One iteration of the `for _ in 0..rs` loop of `update_timers`:
`tima = tima.wrapping_add(1); if tima == 0 { tima = tma; request Timer IRQ }`. -/
def timaStep (t : Timer) : Timer :=
  let tima := (t.tima + 1) % 256
  if tima = 0 then
    { t with tima := t.tma, intf := t.intf ||| interruptMask .Timer }
  else
    { t with tima := tima }

/-- Rust `Timer::update_timers(cycles)`. -/
def Timer.update_timers (t : Timer) (cycles : Nat) : Timer :=
  let dr := divLoop (t.divider_counter + cycles) t.divider_register
  let t := { t with divider_counter := dr.1, divider_register := dr.2 }
  if t.clock_enabled then
    let cc := t.clock_counter + cycles
    let rs := cc / t.input_clock_speed
    let t := { t with clock_counter := cc % t.input_clock_speed }
    timaStep^[rs] t
  else
    t

/-! ## `src/system/rtc.rs` -/

/-- Rust `RealTimeClock` register file (the wall-clock epoch and save path are
host I/O and irrelevant to the register reads/writes modelled here). -/
structure RealTimeClock where
  s : Nat
  m : Nat
  h : Nat
  dl : Nat
  dh : Nat
  deriving DecidableEq, Repr

/-- Rust `RealTimeClock::read_rtc`; `unreachable!()` is `none`. -/
def RealTimeClock.read_rtc (rtc : RealTimeClock) (address : Nat) : Option Nat :=
  match address with
  | 0x08 => some rtc.s
  | 0x09 => some rtc.m
  | 0x0A => some rtc.h
  | 0x0B => some rtc.dl
  | 0x0C => some rtc.dh
  | _ => none

/-- Rust `RealTimeClock::write_rtc`; `unreachable!()` is `none`. -/
def RealTimeClock.write_rtc (rtc : RealTimeClock) (address value : Nat) :
    Option RealTimeClock :=
  match address with
  | 0x08 => some { rtc with s := value }
  | 0x09 => some { rtc with m := value }
  | 0x0A => some { rtc with h := value }
  | 0x0B => some { rtc with dl := value }
  | 0x0C => some { rtc with dh := value }
  | _ => none

/-! ## `src/system/cartridge.rs` -/

inductive Mode where
  | Rom
  | Ram
  deriving DecidableEq, Repr

inductive MBC where
  | None
  | MBC1
  | MBC2
  | MBC3
  | MBC5
  deriving DecidableEq, Repr

/-- Rust `Cartridge` (save path omitted: host I/O only). -/
structure Cartridge where
  game_rom : List Nat
  game_ram : List Nat
  ram_enabled : Bool
  bank_mode : Mode
  rtc : RealTimeClock
  rom_bank : Nat
  ram_bank : Nat
  bank : Nat
  mbc : MBC
  deriving DecidableEq, Repr

/-- Rust `Cartridge::rom_bank(&self)` (the MBC1 banking-mode dependent view). -/
def Cartridge.rom_bank_fn (c : Cartridge) : Nat :=
  match c.bank_mode with
  | .Rom => c.bank &&& 0x7F
  | .Ram => c.bank &&& 0x1F

/-- Rust `Cartridge::ram_bank(&self)` (the MBC1 banking-mode dependent view). -/
def Cartridge.ram_bank_fn (c : Cartridge) : Nat :=
  match c.bank_mode with
  | .Rom => 0x00
  | .Ram => (c.bank &&& 0x60) >>> 5

/-- Rust `Vec` indexing: `none` models the Rust out-of-bounds panic. -/
def vecGet (v : List Nat) (i : Nat) : Option Nat := v.get? i

/-- Rust `Vec` element assignment: `none` models the Rust out-of-bounds panic. -/
def vecSet (v : List Nat) (i x : Nat) : Option (List Nat) :=
  if i < v.length then some (v.set i x) else none

def Cartridge.read_byte_none (c : Cartridge) (address : Nat) : Option Nat :=
  vecGet c.game_rom address

def Cartridge.read_byte_mbc1 (c : Cartridge) (address : Nat) : Option Nat :=
  if address ≤ 0x3FFF then vecGet c.game_rom address
  else if 0x4000 ≤ address ∧ address ≤ 0x7FFF then
    vecGet c.game_rom (c.rom_bank_fn * 0x4000 + address - 0x4000)
  else if 0xA000 ≤ address ∧ address ≤ 0xBFFF then
    if c.ram_enabled then vecGet c.game_ram (c.ram_bank_fn * 0x2000 + address - 0xA000)
    else some 0x00
  else some 0xFF

def Cartridge.read_byte_mbc2 (c : Cartridge) (address : Nat) : Option Nat :=
  if address ≤ 0x3FFF then vecGet c.game_rom address
  else if 0x4000 ≤ address ∧ address ≤ 0x7FFF then
    vecGet c.game_rom (c.rom_bank * 0x4000 + address - 0x4000)
  else if 0xA000 ≤ address ∧ address ≤ 0xA1FF then
    if c.ram_enabled then vecGet c.game_ram (address - 0xA000)
    else some 0x00
  else some 0xFF

def Cartridge.read_byte_mbc3 (c : Cartridge) (address : Nat) : Option Nat :=
  if address ≤ 0x3FFF then vecGet c.game_rom address
  else if 0x4000 ≤ address ∧ address ≤ 0x7FFF then
    vecGet c.game_rom (c.rom_bank * 0x4000 + address - 0x4000)
  else if 0xA000 ≤ address ∧ address ≤ 0xBFFF then
    if c.ram_enabled then
      if c.ram_bank ≤ 0x03 then
        vecGet c.game_ram (c.ram_bank * 0x2000 + address - 0xA000)
      else
        c.rtc.read_rtc c.ram_bank
    else some 0x00
  else some 0x00

def Cartridge.read_byte_mbc5 (c : Cartridge) (address : Nat) : Option Nat :=
  if address ≤ 0x3FFF then vecGet c.game_rom address
  else if 0x4000 ≤ address ∧ address ≤ 0x7FFF then
    vecGet c.game_rom (c.rom_bank * 0x4000 + address - 0x4000)
  else if 0xA000 ≤ address ∧ address ≤ 0xBFFF then
    if c.ram_enabled then vecGet c.game_ram (c.ram_bank * 0x2000 + address - 0xA000)
    else some 0x00
  else some 0x00

def Cartridge.write_byte_none (c : Cartridge) (_address _value : Nat) :
    Option Cartridge := some c

def Cartridge.write_byte_mbc1 (c : Cartridge) (address value : Nat) :
    Option Cartridge :=
  if 0xA000 ≤ address ∧ address ≤ 0xBFFF then
    if c.ram_enabled ∧ c.game_ram.length ≠ 0 then
      (vecSet c.game_ram (c.ram_bank_fn * 0x2000 + address - 0xA000) value).map
        fun ram => { c with game_ram := ram }
    else some c
  else if address ≤ 0x1FFF then
    some { c with ram_enabled := value &&& 0x0F = 0x0A }
  else if 0x2000 ≤ address ∧ address ≤ 0x3FFF then
    let v := value &&& 0x1F
    let v := if v = 0x00 then 0x01 else v
    some { c with bank := (c.bank &&& 0x60) ||| v }
  else if 0x4000 ≤ address ∧ address ≤ 0x5FFF then
    some { c with bank := (c.bank &&& 0x9F) ||| ((value &&& 0x03) <<< 5) }
  else if 0x6000 ≤ address ∧ address ≤ 0x7FFF then
    match value with
    | 0x00 => some { c with bank_mode := .Rom }
    | 0x01 => some { c with bank_mode := .Ram }
    | _ => none
  else some c

def Cartridge.write_byte_mbc2 (c : Cartridge) (address value : Nat) :
    Option Cartridge :=
  let value := value &&& 0x0F
  if 0xA000 ≤ address ∧ address ≤ 0xA1FF then
    if c.ram_enabled then
      (vecSet c.game_ram (address - 0xA000) value).map
        fun ram => { c with game_ram := ram }
    else some c
  else if address ≤ 0x1FFF then
    if address &&& 0x0100 = 0 then
      some { c with ram_enabled := value = 0x0A }
    else some c
  else if 0x2000 ≤ address ∧ address ≤ 0x3FFF then
    if address &&& 0x0100 ≠ 0 then
      some { c with rom_bank := value }
    else some c
  else some c

def Cartridge.write_byte_mbc3 (c : Cartridge) (address value : Nat) :
    Option Cartridge :=
  if 0xA000 ≤ address ∧ address ≤ 0xBFFF then
    if c.ram_enabled then
      if c.ram_bank ≤ 0x03 then
        (vecSet c.game_ram (c.ram_bank * 0x2000 + address - 0xA000) value).map
          fun ram => { c with game_ram := ram }
      else
        (c.rtc.write_rtc c.ram_bank value).map fun rtc => { c with rtc := rtc }
    else some c
  else if address ≤ 0x1FFF then
    some { c with ram_enabled := value &&& 0x0F = 0x0A }
  else if 0x2000 ≤ address ∧ address ≤ 0x3FFF then
    let v := value &&& 0x7F
    let v := if v = 0x00 then 0x01 else v
    some { c with rom_bank := v }
  else if 0x4000 ≤ address ∧ address ≤ 0x5FFF then
    some { c with ram_bank := value &&& 0x0F }
  else if 0x6000 ≤ address ∧ address ≤ 0x7FFF then
    -- `value & 0x01 != 0` triggers `rtc.tick()`, a wall-clock read; the RTC
    -- register file is left unchanged here (tick only refreshes it from the
    -- host clock, which is outside the embedded state).
    some c
  else some c

def Cartridge.write_byte_mbc5 (c : Cartridge) (address value : Nat) :
    Option Cartridge :=
  if 0xA000 ≤ address ∧ address ≤ 0xBFFF then
    if c.ram_enabled then
      (vecSet c.game_ram (c.ram_bank * 0x2000 + address - 0xA000) value).map
        fun ram => { c with game_ram := ram }
    else some c
  else if address ≤ 0x1FFF then
    some { c with ram_enabled := value &&& 0x0F = 0x0A }
  else if 0x2000 ≤ address ∧ address ≤ 0x2FFF then
    some { c with rom_bank := (c.rom_bank &&& 0x100) ||| value }
  else if 0x3000 ≤ address ∧ address ≤ 0x3FFF then
    some { c with rom_bank := (c.rom_bank &&& 0x0FF) ||| ((value &&& 0x01) <<< 8) }
  else if 0x4000 ≤ address ∧ address ≤ 0x5FFF then
    some { c with ram_bank := value &&& 0x0F }
  else some c

/-- Rust `Cartridge::read_byte`: dispatch on the MBC tag. -/
def Cartridge.read_byte (c : Cartridge) (address : Nat) : Option Nat :=
  match c.mbc with
  | .None => c.read_byte_none address
  | .MBC1 => c.read_byte_mbc1 address
  | .MBC2 => c.read_byte_mbc2 address
  | .MBC3 => c.read_byte_mbc3 address
  | .MBC5 => c.read_byte_mbc5 address

/-- Rust `Cartridge::write_byte`: dispatch on the MBC tag. -/
def Cartridge.write_byte (c : Cartridge) (address value : Nat) : Option Cartridge :=
  match c.mbc with
  | .None => c.write_byte_none address value
  | .MBC1 => c.write_byte_mbc1 address value
  | .MBC2 => c.write_byte_mbc2 address value
  | .MBC3 => c.write_byte_mbc3 address value
  | .MBC5 => c.write_byte_mbc5 address value

/-! ## `src/system/gpu.rs` -/

/-- Pointwise update of a `Nat`-indexed store (models a fixed-size array cell
assignment; all arrays indexed this way in `gpu.rs` are indexed in range). -/
def upd (f : Nat → Nat) (i x : Nat) : Nat → Nat :=
  fun j => if j = i then x else f j

def upd2 {α : Type} (f : Nat → Nat → α) (i j : Nat) (x : α) : Nat → Nat → α :=
  fun i' j' => if i' = i ∧ j' = j then x else f i' j'

def updP (f : Nat → Bool × Nat) (i : Nat) (x : Bool × Nat) : Nat → Bool × Nat :=
  fun j => if j = i then x else f j

def upd3 (f : Nat → Nat → Nat → Nat) (r c ch x : Nat) : Nat → Nat → Nat → Nat :=
  fun r' c' ch' => if r' = r ∧ c' = c ∧ ch' = ch then x else f r' c' ch'

/-- CGB BG/sprite tile `Attributes` decoded from a VRAM bank-1 byte. -/
structure Attributes where
  priority : Bool
  yflip : Bool
  xflip : Bool
  palette_number_dmg : Bool
  vram_bank : Bool
  palette_number_cgb : Nat
  deriving DecidableEq, Repr

/-- Rust `impl From<u8> for Attributes`. -/
def attributesFrom (uint : Nat) : Attributes :=
  { priority := uint &&& (1 <<< 7) ≠ 0
    yflip := uint &&& (1 <<< 6) ≠ 0
    xflip := uint &&& (1 <<< 5) ≠ 0
    palette_number_dmg := uint &&& (1 <<< 4) ≠ 0
    vram_bank := uint &&& (1 <<< 3) ≠ 0
    palette_number_cgb := uint &&& 0x07 }

/-- Rust `Gpi`: CGB palette index register (BGPI/OBPI). -/
structure Gpi where
  index : Nat
  auto_increment : Bool
  deriving DecidableEq, Repr

def Gpi.new : Gpi := { index := 0x00, auto_increment := false }

def Gpi.read (g : Gpi) : Nat :=
  (if g.auto_increment then 0x80 else 0x00) ||| g.index

def Gpi.write (_g : Gpi) (value : Nat) : Gpi :=
  { auto_increment := value &&& 0x80 ≠ 0x00, index := value &&& 0x3F }

inductive HDMAMode where
  | GDMA
  | HDMA
  deriving DecidableEq, Repr

/-- CGB `HDMA` transfer state. -/
structure HDMA where
  source : Nat
  destination : Nat
  active : Bool
  mode : HDMAMode
  remain : Nat
  deriving DecidableEq, Repr

def HDMA.new : HDMA :=
  { source := 0x0000
    destination := 0x8000
    active := false
    mode := .GDMA
    remain := 0x00 }

/-- Rust `HDMA::read_hdma`.  Note the `0xFF43` arm in the source where `0xFF53`
was evidently intended; `0xFF53` therefore falls through to `unreachable!()`,
modelled as `none`. -/
def HDMA.read_hdma (h : HDMA) (address : Nat) : Option Nat :=
  match address with
  | 0xFF51 => some ((h.source >>> 8) % 256)
  | 0xFF52 => some (h.source % 256)
  | 0xFF43 => some ((h.destination >>> 8) % 256)
  | 0xFF54 => some (h.destination % 256)
  | 0xFF55 => some (h.remain ||| (if h.active then 0x00 else 0x80))
  | _ => none

/-- Rust `HDMA::write_hdma`. -/
def HDMA.write_hdma (h : HDMA) (address value : Nat) : Option HDMA :=
  match address with
  | 0xFF51 => some { h with source := ((value % 256) <<< 8) ||| (h.source &&& 0x00FF) }
  | 0xFF52 => some { h with source := (h.source &&& 0xFF00) ||| (value &&& 0xF0) }
  | 0xFF53 => some { h with destination := 0x8000 ||| ((value &&& 0x1F) <<< 8) ||| (h.destination &&& 0x00FF) }
  | 0xFF54 => some { h with destination := (h.destination &&& 0xFF00) ||| (value &&& 0xF0) }
  | 0xFF55 =>
      if h.active ∧ h.mode = .HDMA then
        if value &&& 0x80 = 0x00 then some { h with active := false } else some h
      else
        some { h with
          active := true
          remain := value &&& 0x7F
          mode := if value &&& 0x80 ≠ 0x00 then .HDMA else .GDMA }
  | _ => none

/-- Rust `Stat` (0xFF41): interrupt-source enables plus the 2-bit mode field. -/
structure Stat where
  enable_ly_interrupt : Bool
  enable_m2_interrupt : Bool
  enable_m1_interrupt : Bool
  enable_m0_interrupt : Bool
  mode : Nat
  deriving DecidableEq, Repr

inductive Hardware where
  | DMG
  | CGB
  deriving DecidableEq, Repr

/-- Rust `GPU` state.  `intf` mirrors the shared `Rc<RefCell<Interrupt>>` cell's
IF register, mutated through `set_interrupt`.  Arrays are `Nat`-indexed
stores; `screen_data[line][pixel]` is an RGB triple. -/
structure GPU where
  intf : Nat
  vram : Nat → Nat
  screen_data : Nat → Nat → Nat × Nat × Nat
  oam : Nat → Nat
  lyc : Nat
  priority : Nat → Bool × Nat
  lcdc : Nat
  stat : Stat
  current_line : Nat
  window_x : Nat
  window_y : Nat
  bg_palette : Nat
  obp0_palette : Nat
  obp1_palette : Nat
  scroll_x : Nat
  scroll_y : Nat
  scanline_counter : Nat
  vblank : Bool
  hblank : Bool
  hardware : Hardware
  bgpi : Gpi
  bgpd : Nat → Nat → Nat → Nat
  obpi : Gpi
  obpd : Nat → Nat → Nat → Nat
  vram_bank : Nat

/-- Rust `GPU::new`. -/
def GPU.new : GPU :=
  { intf := 0
    screen_data := fun _ _ => (0xFF, 0xFF, 0xFF)
    vram := fun _ => 0
    oam := fun _ => 0
    stat :=
      { enable_ly_interrupt := false
        enable_m2_interrupt := false
        enable_m1_interrupt := false
        enable_m0_interrupt := false
        mode := 0 }
    priority := fun _ => (true, 0)
    bg_palette := 0
    obp0_palette := 0
    obp1_palette := 0
    lcdc := 0
    scroll_x := 0
    scroll_y := 0
    lyc := 0
    window_x := 0
    window_y := 0
    current_line := 0
    scanline_counter := 456
    vblank := false
    hblank := false
    hardware := .DMG
    bgpi := Gpi.new
    bgpd := fun _ _ _ => 0
    obpi := Gpi.new
    obpd := fun _ _ _ => 0
    vram_bank := 0 }

/-- Rust `Lcdc` bit accessors (`lcdc.data` is the `lcdc` field). -/
def GPU.lcdcBit (g : GPU) (b : Nat) : Bool := g.lcdc &&& (1 <<< b) ≠ 0

def GPU.set_interrupt (g : GPU) (kind : Interrupts) : GPU :=
  { g with intf := g.intf ||| interruptMask kind }

def GPU.read_vram (g : GPU) (address : Nat) : Nat :=
  g.vram (g.vram_bank * 0x2000 + address - 0x8000)

def GPU.write_vram (g : GPU) (address value : Nat) : GPU :=
  { g with vram := upd g.vram (g.vram_bank * 0x2000 + address - 0x8000) value }

/-- Rust `GPU::read_registers`; the catch-all `panic!` arm is `none`. -/
def GPU.read_registers (g : GPU) (address : Nat) : Option Nat :=
  match address with
  | 0xFF40 => some g.lcdc
  | 0xFF41 =>
      some ((if g.stat.enable_ly_interrupt then 0x40 else 0x00)
        ||| (if g.stat.enable_m2_interrupt then 0x20 else 0x00)
        ||| (if g.stat.enable_m1_interrupt then 0x10 else 0x00)
        ||| (if g.stat.enable_m0_interrupt then 0x08 else 0x00)
        ||| (if g.current_line = g.lyc then 0x04 else 0x00)
        ||| g.stat.mode)
  | 0xFF42 => some g.scroll_y
  | 0xFF43 => some g.scroll_x
  | 0xFF44 => some g.current_line
  | 0xFF45 => some g.lyc
  | 0xFF47 => some g.bg_palette
  | 0xFF48 => some g.obp0_palette
  | 0xFF49 => some g.obp1_palette
  | 0xFF4A => some g.window_y
  | 0xFF4B => some g.window_x
  | 0xFF4F => some (0xFE ||| g.vram_bank)
  | 0xFF68 => some g.bgpi.read
  | 0xFF69 =>
      let r := g.bgpi.index >>> 3
      let c := (g.bgpi.index >>> 1) &&& 3
      if g.bgpi.index &&& 0x01 = 0x00 then
        some (g.bgpd r c 0 ||| ((g.bgpd r c 1 <<< 5) % 256))
      else
        some ((g.bgpd r c 1 >>> 3) ||| ((g.bgpd r c 2 <<< 2) % 256))
  | 0xFF6A => some g.obpi.read
  | 0xFF6B =>
      let r := g.obpi.index >>> 3
      let c := (g.obpi.index >>> 1) &&& 3
      if g.obpi.index &&& 0x01 = 0x00 then
        some (g.obpd r c 0 ||| ((g.obpd r c 1 <<< 5) % 256))
      else
        some ((g.obpd r c 1 >>> 3) ||| ((g.obpd r c 2 <<< 2) % 256))
  | _ => none

/-- Rust `GPU::write_registers`; the catch-all `panic!` arm is `none`. -/
def GPU.write_registers (g : GPU) (address value : Nat) : Option GPU :=
  match address with
  | 0xFF40 =>
      let g := { g with lcdc := value }
      if ¬ g.lcdcBit 7 then
        some { g with
          scanline_counter := 0
          current_line := 0
          stat := { g.stat with mode := 0 }
          screen_data := fun _ _ => (0xFF, 0xFF, 0xFF)
          vblank := true }
      else some g
  | 0xFF41 =>
      some { g with stat :=
        { g.stat with
          enable_ly_interrupt := value &&& 0x40 ≠ 0x00
          enable_m2_interrupt := value &&& 0x20 ≠ 0x00
          enable_m1_interrupt := value &&& 0x10 ≠ 0x00
          enable_m0_interrupt := value &&& 0x08 ≠ 0x00 } }
  | 0xFF42 => some { g with scroll_y := value }
  | 0xFF43 => some { g with scroll_x := value }
  | 0xFF44 => some { g with current_line := 0 }
  | 0xFF45 => some { g with lyc := value }
  | 0xFF47 => some { g with bg_palette := value }
  | 0xFF48 => some { g with obp0_palette := value }
  | 0xFF49 => some { g with obp1_palette := value }
  | 0xFF4A => some { g with window_y := value }
  | 0xFF4B => some { g with window_x := value }
  | 0xFF4F => some { g with vram_bank := value &&& 0x01 }
  | 0xFF68 => some { g with bgpi := g.bgpi.write value }
  | 0xFF69 =>
      let r := g.bgpi.index >>> 3
      let c := (g.bgpi.index >>> 1) &&& 0x03
      let g :=
        if g.bgpi.index &&& 0x01 = 0x00 then
          let g := { g with bgpd := upd3 g.bgpd r c 0 (value &&& 0x1F) }
          { g with bgpd := upd3 g.bgpd r c 1 ((g.bgpd r c 1 &&& 0x18) ||| (value >>> 5)) }
        else
          let g := { g with bgpd := upd3 g.bgpd r c 1 ((g.bgpd r c 1 &&& 0x07) ||| ((value &&& 0x03) <<< 3)) }
          { g with bgpd := upd3 g.bgpd r c 2 ((value >>> 2) &&& 0x1F) }
      if g.bgpi.auto_increment then
        some { g with bgpi := { g.bgpi with index := (g.bgpi.index + 0x01) &&& 0x3F } }
      else some g
  | 0xFF6A => some { g with obpi := g.obpi.write value }
  | 0xFF6B =>
      let r := g.obpi.index >>> 3
      let c := (g.obpi.index >>> 1) &&& 0x03
      let g :=
        if g.obpi.index &&& 0x01 = 0x00 then
          let g := { g with obpd := upd3 g.obpd r c 0 (value &&& 0x1F) }
          { g with obpd := upd3 g.obpd r c 1 ((g.obpd r c 1 &&& 0x18) ||| (value >>> 5)) }
        else
          let g := { g with obpd := upd3 g.obpd r c 1 ((g.obpd r c 1 &&& 0x07) ||| ((value &&& 0x03) <<< 3)) }
          { g with obpd := upd3 g.obpd r c 2 ((value >>> 2) &&& 0x1F) }
      if g.obpi.auto_increment then
        some { g with obpi := { g.obpi with index := (g.obpi.index + 0x01) &&& 0x3F } }
      else some g
  | _ => none

/-- 8-bit wrapping add (`u8::wrapping_add`, and release-mode `+` on `u8`). -/
def wadd8 (a b : Nat) : Nat := (a + b) % 256

/-- 8-bit wrapping subtraction (`u8::wrapping_sub`, and release-mode `-` on
`u8`); operands are byte values. -/
def wsub8 (a b : Nat) : Nat := (a + 256 - b % 256) % 256

/-- Rust `GPU::set_color_cgb` (the `as u8` casts truncate mod 256). -/
def GPU.set_color_cgb (g : GPU) (pixel r gr b : Nat) : GPU :=
  let new_red := ((r * 13 + gr * 2 + b) >>> 1) % 256
  let new_green := ((gr * 3 + b) <<< 1) % 256
  let new_blue := ((r * 3 + gr * 2 + b * 11) >>> 1) % 256
  { g with
    screen_data := upd2 g.screen_data g.current_line pixel (new_red, new_green, new_blue) }

/-- Loop body of `GPU::render_tiles` for one of the 160 pixels. -/
def GPU.renderTilePixel (g : GPU) (using_window : Bool)
    (tile_data y_pos tile_row window_x pixel : Nat) : GPU :=
  let x_pos := if using_window ∧ window_x ≤ pixel then pixel - window_x
    else wadd8 g.scroll_x pixel
  let tile_col := (x_pos >>> 3) &&& 0x1F
  let background_memory :=
    if using_window ∧ window_x ≤ pixel then
      if g.lcdcBit 6 then 0x9C00 else 0x9800
    else if g.lcdcBit 3 then 0x9C00 else 0x9800
  let tile_address := background_memory + tile_row * 32 + tile_col
  let tile_number := g.vram (tile_address - 0x8000)
  let tile_offset :=
    (if g.lcdcBit 4 then tile_number
     else if tile_number < 128 then tile_number + 128 else tile_number - 128) * 16
  let tile_location := tile_data + tile_offset
  let tile_attributes := attributesFrom (g.vram (tile_address - 0x6000))
  let tile_y := if tile_attributes.yflip then 7 - y_pos % 8 else y_pos % 8
  let tile_y_data :=
    if g.hardware = .CGB ∧ tile_attributes.vram_bank then
      (g.vram (tile_location + tile_y * 2 - 0x6000),
        g.vram (tile_location + tile_y * 2 + 1 - 0x6000))
    else
      (g.vram (tile_location + tile_y * 2 - 0x8000),
        g.vram (tile_location + tile_y * 2 + 1 - 0x8000))
  let tile_x := if tile_attributes.xflip then 7 - x_pos % 8 else x_pos % 8
  let color_low := if tile_y_data.1 &&& (0x80 >>> tile_x) ≠ 0 then 1 else 0
  let color_high := if tile_y_data.2 &&& (0x80 >>> tile_x) ≠ 0 then 2 else 0
  let color := color_high ||| color_low
  let g := { g with priority := updP g.priority pixel (tile_attributes.priority, color) }
  if g.hardware = .CGB then
    set_color_cgb g pixel
      (g.bgpd tile_attributes.palette_number_cgb color 0)
      (g.bgpd tile_attributes.palette_number_cgb color 1)
      (g.bgpd tile_attributes.palette_number_cgb color 2)
  else
    let pal := (g.bg_palette >>> (2 * color)) &&& 0x03
    let shade : Nat := if pal = 0x00 then 255 else if pal = 0x01 then 192 else if pal = 0x02 then 96 else 0
    { g with screen_data := upd2 g.screen_data g.current_line pixel (shade, shade, shade) }

/-- Rust `GPU::render_tiles`. -/
def GPU.render_tiles (g : GPU) : GPU :=
  let using_window := g.lcdcBit 5 ∧ g.window_y ≤ g.current_line
  let tile_data := if g.lcdcBit 4 then 0x8000 else 0x8800
  let window_x := wsub8 g.window_x 7
  let y_pos :=
    if ¬ using_window then wadd8 g.scroll_y g.current_line
    else wsub8 g.current_line g.window_y
  let tile_row := (y_pos >>> 3) &&& 0x1F
  (List.range 160).foldl
    (fun g pixel => g.renderTilePixel using_window tile_data y_pos tile_row window_x pixel) g

structure Sprite where
  sprite_num : Nat
  x : Nat
  y : Nat
  deriving DecidableEq, Repr

/-- Loop body of the per-sprite pixel loop in `GPU::render_sprites`. -/
def GPU.renderSpritePixel (g : GPU) (x_pos : Nat) (attrs : Attributes)
    (tile_y_data : Nat × Nat) (pixel : Nat) : GPU :=
  if 160 ≤ wadd8 x_pos pixel then g
  else
    let tile_x := if attrs.xflip then 7 - pixel else pixel
    let color_l := if tile_y_data.1 &&& (0x80 >>> tile_x) ≠ 0 then 1 else 0
    let color_h := if tile_y_data.2 &&& (0x80 >>> tile_x) ≠ 0 then 2 else 0
    let color := color_h ||| color_l
    if color = 0 then g
    else
      let prio := g.priority (wadd8 x_pos pixel)
      let skip :=
        if g.hardware = .CGB ∧ ¬ g.lcdcBit 0 then prio.2 = 0
        else if prio.1 then prio.2 ≠ 0
        else attrs.priority ∧ prio.2 ≠ 0
      if skip then g
      else if g.hardware = .CGB then
        set_color_cgb g (wadd8 x_pos pixel)
          (g.obpd attrs.palette_number_cgb color 0)
          (g.obpd attrs.palette_number_cgb color 1)
          (g.obpd attrs.palette_number_cgb color 2)
      else
        let pal :=
          if attrs.palette_number_dmg then (g.obp1_palette >>> (2 * color)) &&& 0x03
          else (g.obp0_palette >>> (2 * color)) &&& 0x03
        let shade : Nat := if pal = 0x00 then 255 else if pal = 0x01 then 192 else if pal = 0x02 then 96 else 0
        { g with
          screen_data := upd2 g.screen_data g.current_line (wadd8 x_pos pixel) (shade, shade, shade) }

/-- Body of the per-sprite loop in `GPU::render_sprites` (u8 overflow in the
range tests follows release-mode wrapping). -/
def GPU.renderSprite (g : GPU) (sprite : Sprite) : GPU :=
  let sprite_size := if g.lcdcBit 2 then 16 else 8
  let sprite_address := sprite.sprite_num * 4
  let y_pos := wsub8 (g.oam sprite_address) 16
  let x_pos := wsub8 (g.oam (sprite_address + 1)) 8
  let tile_number := g.oam (sprite_address + 2) &&& (if g.lcdcBit 2 then 0xFE else 0xFF)
  let sprite_attributes := attributesFrom (g.oam (sprite_address + 3))
  let last_row := wsub8 (wadd8 y_pos sprite_size) 1
  let in_range :=
    if y_pos ≤ 0xFF - sprite_size + 1 then
      ¬ (g.current_line < y_pos ∨ g.current_line > last_row)
    else
      ¬ (g.current_line > last_row)
  if ¬ in_range then g
  else if 160 ≤ x_pos ∧ x_pos ≤ 0xFF - 7 then g
  else
    let tile_y :=
      if sprite_attributes.yflip then wsub8 (sprite_size - 1) (wsub8 g.current_line y_pos)
      else wsub8 g.current_line y_pos
    let tile_y_addr := 0x8000 + tile_number * 16 + tile_y * 2
    let tile_y_data :=
      if g.hardware = .CGB ∧ sprite_attributes.vram_bank then
        (g.vram (tile_y_addr - 0x6000), g.vram (tile_y_addr + 1 - 0x6000))
      else
        (g.vram (tile_y_addr - 0x8000), g.vram (tile_y_addr + 1 - 0x8000))
    (List.range 8).foldl
      (fun g pixel => g.renderSpritePixel x_pos sprite_attributes tile_y_data pixel) g

/-- Rust `GPU::render_sprites`: collect up to ten sprites covering the current
line, render them in reverse OAM order. -/
def GPU.render_sprites (g : GPU) : GPU :=
  let sprite_size := if g.lcdcBit 2 then 16 else 8
  let sprites :=
    (List.range 40).filterMap fun sprite =>
      let y_pos := wsub8 (g.oam (sprite * 4)) 16
      let x_pos := wsub8 (g.oam (sprite * 4 + 1)) 8
      if y_pos ≤ g.current_line ∧ g.current_line < wadd8 y_pos sprite_size then
        some { sprite_num := sprite, x := x_pos, y := y_pos : Sprite }
      else none
  let sprites := if sprites.length > 10 then sprites.take 10 else sprites
  let sprites := sprites.reverse
  sprites.foldl (fun g sprite => g.renderSprite sprite) g

/-- Rust `GPU::draw_scanline`. -/
def GPU.draw_scanline (g : GPU) : GPU :=
  let g := if g.lcdcBit 0 then g.render_tiles else g
  if g.lcdcBit 1 then g.render_sprites else g

/-- First half of one iteration of the `for i in 0..c` loop of
`GPU::update_graphics`: advance `scanline_counter` (the last iteration adds
`cycles % 80`, the others 80), wrap it at 456, and when it wrapped advance
`current_line` mod 154 and raise the LYC STAT interrupt when enabled. -/
def GPU.lineAdvance (g : GPU) (cycles c i : Nat) : GPU :=
  let g := { g with
    scanline_counter := g.scanline_counter + (if i = c - 1 then cycles % 80 else 80) }
  let d := g.scanline_counter
  let g := { g with scanline_counter := d % 456 }
  if d ≠ g.scanline_counter then
    let g := { g with current_line := (g.current_line + 1) % 154 }
    if g.stat.enable_ly_interrupt ∧ g.current_line = g.lyc then
      g.set_interrupt Interrupts.LCDStat
    else g
  else g

/-- Second half of the loop iteration: the mode state machine
(1 in VBlank, 2/3/0 across the scanline), with the mode-entry interrupts
and `draw_scanline` on entry into H-blank. -/
def GPU.modeDispatch (g : GPU) : GPU :=
  if 144 ≤ g.current_line then
    if g.stat.mode = 1 then g
    else
      let g := { g with stat := { g.stat with mode := 1 }, vblank := true }
      let g := g.set_interrupt Interrupts.VBlank
      if g.stat.enable_m1_interrupt then g.set_interrupt Interrupts.LCDStat else g
  else if g.scanline_counter ≤ 80 then
    if g.stat.mode = 2 then g
    else
      let g := { g with stat := { g.stat with mode := 2 } }
      if g.stat.enable_m2_interrupt then g.set_interrupt Interrupts.LCDStat else g
  else if g.scanline_counter ≤ 80 + 172 then
    { g with stat := { g.stat with mode := 3 } }
  else
    if g.stat.mode = 0 then g
    else
      let g := { g with stat := { g.stat with mode := 0 }, hblank := true }
      let g := if g.stat.enable_m0_interrupt then g.set_interrupt Interrupts.LCDStat else g
      g.draw_scanline

/-- One iteration of the `for i in 0..c` loop of `GPU::update_graphics`. -/
def GPU.updateStep (g : GPU) (cycles c i : Nat) : GPU :=
  (g.lineAdvance cycles c i).modeDispatch

/-- Rust `GPU::update_graphics(cycles)`. -/
def GPU.update_graphics (g : GPU) (cycles : Nat) : GPU :=
  let g := { g with hblank := false }
  if ¬ g.lcdcBit 7 then g
  else if cycles = 0 then g
  else
    let c := (cycles - 1) / 80 + 1
    (List.range c).foldl (fun g i => g.updateStep cycles c i) g

/-! ## `src/system/joypad.rs`, `src/system/serial.rs`, `src/system/audio.rs` -/

/-- Rust `Joypad` (interrupt cell omitted: not touched by the bus paths). -/
structure Joypad where
  matrix : Nat
  select : Nat
  deriving DecidableEq, Repr

def Joypad.new : Joypad := { matrix := 0xFF, select := 0x00 }

def Joypad.get_joypad_state (j : Joypad) : Nat :=
  if j.select &&& 0x10 = 0x00 then j.select ||| (j.matrix &&& 0x0F)
  else if j.select &&& 0x20 = 0x00 then j.select ||| (j.matrix >>> 4)
  else j.select

def Joypad.set_joypad_state (j : Joypad) (value : Nat) : Joypad :=
  { j with select := value }

structure Serial where
  data : Nat
  control : Nat
  deriving DecidableEq, Repr

def Serial.new : Serial := { data := 0x00, control := 0x00 }

/-- Rust `Serial::read_serial`; `unreachable!()` is `none`. -/
def Serial.read_serial (s : Serial) (address : Nat) : Option Nat :=
  match address with
  | 0xFF01 => some s.data
  | 0xFF02 => some s.control
  | _ => none

/-- Rust `Serial::write_serial`; `unreachable!()` is `none`. -/
def Serial.write_serial (s : Serial) (address value : Nat) : Option Serial :=
  match address with
  | 0xFF01 => some { s with data := value }
  | 0xFF02 => some { s with control := value }
  | _ => none

/-- Rust `APU`: a register-accepting stub over 0x30 bytes of `sound_data`. -/
structure APU where
  sound_data : Nat → Nat

def APU.new : APU := { sound_data := fun _ => 0 }

def APU.read_byte (a : APU) (address : Nat) : Nat :=
  a.sound_data (address - 0xFF10)

def APU.write_byte (a : APU) (address value : Nat) : APU :=
  { a with sound_data := upd a.sound_data (address - 0xFF10) value }

/-! ## `src/system/bus.rs` -/

inductive Speed where
  | Regular
  | Double
  deriving DecidableEq, Repr

/-- Rust `MMU` as used by `bus.rs` (`src/system/memory.rs` in the tree is an
earlier revision without `hram`/`wram_bank`).  Modelled from the spec: WRAM
is banked (bank 0 at C000, switchable bank selected by SVBK at D000) and
HRAM covers FF80-FFFE; fields and indexing follow the `bus.rs` accesses. -/
structure MMU where
  wram : Nat → Nat
  hram : Nat → Nat
  wram_bank : Nat
  cartridge : Cartridge

/-- Rust `MemoryBus`.  `intref` is the shared `Rc<RefCell<Interrupt>>` cell as
seen through the bus (the IF/IE registers). -/
structure MemoryBus where
  intref : Interrupt
  memory : MMU
  gpu : GPU
  keys : Joypad
  timer : Timer
  apu : APU
  serial : Serial
  run_bootrom : Bool
  bootrom : List Nat
  speed : Speed
  speed_shift : Bool
  hdma : HDMA

/-- Rust `MemoryBus::read_byte`; `none` models a panic (unimplemented GPU register
read, HDMA `unreachable!`, or `Vec` indexing out of bounds). -/
def MemoryBus.read_byte (s : MemoryBus) (address : Nat) : Option Nat :=
  if address ≤ 0x7FFF then
    if s.run_bootrom ∧ address ≤ 0xFF then s.bootrom.get? address
    else s.memory.cartridge.read_byte address
  else if 0xA000 ≤ address ∧ address ≤ 0xBFFF then
    s.memory.cartridge.read_byte address
  else if 0x8000 ≤ address ∧ address ≤ 0x9FFF then
    some (s.gpu.read_vram address)
  else if 0xC000 ≤ address ∧ address ≤ 0xCFFF then
    some (s.memory.wram (address - 0xC000))
  else if 0xD000 ≤ address ∧ address ≤ 0xDFFF then
    some (s.memory.wram (address - 0xD000 + 0x1000 * s.memory.wram_bank))
  else if 0xE000 ≤ address ∧ address ≤ 0xEFFF then
    some (s.memory.wram (address - 0xE000))
  else if 0xF000 ≤ address ∧ address ≤ 0xFDFF then
    some (s.memory.wram (address - 0xF000 + 0x1000 * s.memory.wram_bank))
  else if 0xFE00 ≤ address ∧ address ≤ 0xFE9F then
    some (s.gpu.oam (address - 0xFE00))
  else if 0xFF40 ≤ address ∧ address ≤ 0xFF4B then
    s.gpu.read_registers address
  else if 0xFF80 ≤ address ∧ address ≤ 0xFFFE then
    some (s.memory.hram (address - 0xFF80))
  else if 0xFEA0 ≤ address ∧ address ≤ 0xFEFF then
    some 0x00
  else if address = 0xFF00 then
    some s.keys.get_joypad_state
  else if address = 0xFF0F then
    some s.intref.interrupt_flag
  else if address = 0xFFFF then
    some s.intref.interrupt_enable
  else if address = 0xFF04 then
    some s.timer.divider_register
  else if address = 0xFF05 then
    some s.timer.tima
  else if address = 0xFF07 then
    let clock := if s.timer.clock_enabled then 1 else 0
    -- the `6 => 1` arm reproduces the source (`16` was evidently meant)
    let speed :=
      if s.timer.input_clock_speed = 1024 then 0
      else if s.timer.input_clock_speed = 6 then 1
      else if s.timer.input_clock_speed = 64 then 2
      else if s.timer.input_clock_speed = 256 then 3
      else 0
    some ((clock <<< 2) ||| speed)
  else if 0xFF10 ≤ address ∧ address ≤ 0xFF3F then
    some (s.apu.read_byte address)
  else if 0xFF01 ≤ address ∧ address ≤ 0xFF02 then
    s.serial.read_serial address
  else if address = 0xFF4D then
    some ((if s.speed = Speed.Double then 0x80 else 0x00)
      ||| (if s.speed_shift then 0x01 else 0x00))
  else if 0xFF51 ≤ address ∧ address ≤ 0xFF55 then
    s.hdma.read_hdma address
  else if 0xFF68 ≤ address ∧ address ≤ 0xFF6B then
    s.gpu.read_registers address
  else if address = 0xFF70 then
    some s.memory.wram_bank
  else
    some 0x00

/-- The OAM DMA loop triggered by a write to 0xFF46:
`for i in 0..=0x9F { self.gpu.oam[i] = self.read_byte((value << 8) + i) }`. -/
def MemoryBus.dmaTransfer (s : MemoryBus) (src : Nat) : Option MemoryBus :=
  (List.range 0xA0).foldlM
    (fun s i =>
      (MemoryBus.read_byte s (src + i)).map
        fun x => { s with gpu := { s.gpu with oam := upd s.gpu.oam i x } })
    s

/-- Rust `MemoryBus::write_byte`; `none` models a panic along the write path. -/
def MemoryBus.write_byte (s : MemoryBus) (address value : Nat) : Option MemoryBus :=
  if address ≤ 0x7FFF then
    (s.memory.cartridge.write_byte address value).map
      fun c => { s with memory := { s.memory with cartridge := c } }
  else if 0xA000 ≤ address ∧ address ≤ 0xBFFF then
    (s.memory.cartridge.write_byte address value).map
      fun c => { s with memory := { s.memory with cartridge := c } }
  else if address = 0xFF00 then
    some { s with keys := s.keys.set_joypad_state value }
  else if 0x8000 ≤ address ∧ address ≤ 0x9FFF then
    some { s with gpu := s.gpu.write_vram address value }
  else if 0xC000 ≤ address ∧ address ≤ 0xCFFF then
    some { s with memory := { s.memory with wram := upd s.memory.wram (address - 0xC000) value } }
  else if 0xD000 ≤ address ∧ address ≤ 0xDFFF then
    some { s with memory := { s.memory with wram := upd s.memory.wram (address - 0xD000 + 0x1000 * s.memory.wram_bank) value } }
  else if 0xE000 ≤ address ∧ address ≤ 0xEFFF then
    some { s with memory := { s.memory with wram := upd s.memory.wram (address - 0xE000) value } }
  else if 0xF000 ≤ address ∧ address ≤ 0xFDFF then
    some { s with memory := { s.memory with wram := upd s.memory.wram (address - 0xF000 + 0x1000 * s.memory.wram_bank) value } }
  else if address = 0xFF0F then
    some { s with intref := { s.intref with interrupt_flag := value } }
  else if address = 0xFF04 then
    some { s with timer := { s.timer with divider_register := 0 } }
  else if address = 0xFF05 then
    some { s with timer := { s.timer with tima := value } }
  else if address = 0xFF06 then
    some { s with timer := { s.timer with tma := value } }
  else if address = 0xFF07 then
    let s := { s with timer := { s.timer with clock_enabled := value &&& 0x04 ≠ 0 } }
    let new_speed :=
      if value &&& 0x03 = 0 then 1024
      else if value &&& 0x03 = 1 then 16
      else if value &&& 0x03 = 2 then 64
      else 256
    if new_speed ≠ s.timer.input_clock_speed then
      some { s with timer := { s.timer with input_clock_speed := new_speed } }
    else some s
  else if 0xFF10 ≤ address ∧ address ≤ 0xFF3F then
    some { s with apu := s.apu.write_byte address value }
  else if 0xFF01 ≤ address ∧ address ≤ 0xFF02 then
    (s.serial.write_serial address value).map fun sr => { s with serial := sr }
  else if 0xFF80 ≤ address ∧ address ≤ 0xFFFE then
    some { s with memory := { s.memory with hram := upd s.memory.hram (address - 0xFF80) value } }
  else if 0xFE00 ≤ address ∧ address ≤ 0xFE9F then
    some { s with gpu := { s.gpu with oam := upd s.gpu.oam (address - 0xFE00) value } }
  else if 0xFEA0 ≤ address ∧ address ≤ 0xFEFF then
    some s
  else if address = 0xFF4D then
    some { s with speed_shift := value &&& 0x01 = 0x01 }
  else if 0xFF51 ≤ address ∧ address ≤ 0xFF55 then
    (s.hdma.write_hdma address value).map fun h => { s with hdma := h }
  else if 0xFF68 ≤ address ∧ address ≤ 0xFF6B then
    (s.gpu.write_registers address value).map fun gp => { s with gpu := gp }
  else if address = 0xFF70 then
    some { s with memory := { s.memory with
      wram_bank := if value &&& 0x07 = 0 then 1 else value &&& 0x07 } }
  else if address = 0xFFFF then
    some { s with intref := { s.intref with interrupt_enable := value } }
  else if (0xFF40 ≤ address ∧ address ≤ 0xFF4B) ∨ address = 0xFF4F then
    if address = 0xFF46 then
      s.dmaTransfer ((value % 256) <<< 8)
    else
      (s.gpu.write_registers address value).map fun gp => { s with gpu := gp }
  else
    some s

/-- Rust `MemoryBus::write_word`; the local `lower` in the source actually holds
`word >> 8` (the high byte) and `higher` holds `word & 0xFF` (the low byte);
the `as u8` casts truncate mod 256. -/
def MemoryBus.write_word (s : MemoryBus) (address word : Nat) : Option MemoryBus :=
  let lower := word >>> 8
  let higher := word &&& 0xFF
  (MemoryBus.write_byte s address (higher % 256)).bind
    fun s => MemoryBus.write_byte s (address + 1) (lower % 256)

/-! ## `src/system/cpu.rs`: the monolithic CPU driven by `main.rs`

Only the fragments the claims are about are embedded: interrupt dispatch
(`process_interrupts`, `rst40`..`rst60`), `Instructions::EI()`, and the
`ArithmeticTarget::A` body of `Instructions::SBC`. -/

/-- State fragment of the monolithic `CPU` relevant to interrupt dispatch.
`interrupt_enable`/`interrupt_flag` live in `bus.memory` in the source;
`writes` records the `(address, byte)` arguments of the `write_byte` calls
issued through the old `write_word`, in call order (a trace semantics of the
memory stores). -/
structure IntCpu where
  ime : Bool
  interrupt_enable : Nat
  interrupt_flag : Nat
  pc : Nat
  sp : Nat
  writes : List (Nat × Nat)
  deriving DecidableEq, Repr

/-- The old `MemoryBus::write_word` (`src/system/cpu.rs:506`):
`lower = word >> 8; higher = word & 0xFF; write_byte(address, lower);
write_byte(address, higher)` — both bytes go to the *same* address. -/
def IntCpu.write_word (s : IntCpu) (address word : Nat) : IntCpu :=
  let lower := word >>> 8
  let higher := word &&& 0xFF
  { s with writes := s.writes ++ [(address, lower % 256), (address, higher % 256)] }

/-- Rust `CPU::rst40` (V-Blank vector): `ime = false; sp -= 2;
write_word(sp, pc + 1); pc = 0x40` (u16 arithmetic wraps per release mode). -/
def IntCpu.rst40 (s : IntCpu) : IntCpu :=
  let s := { s with ime := false }
  let s := { s with sp := (s.sp + 65534) % 65536 }
  let s := s.write_word s.sp ((s.pc + 1) % 65536)
  { s with pc := 0x40 }

/-- Rust `CPU::rst48` (LCD STAT vector). -/
def IntCpu.rst48 (s : IntCpu) : IntCpu :=
  let s := { s with ime := false }
  let s := { s with sp := (s.sp + 65534) % 65536 }
  let s := s.write_word s.sp ((s.pc + 1) % 65536)
  { s with pc := 0x48 }

/-- Rust `CPU::rst50` (Timer vector). -/
def IntCpu.rst50 (s : IntCpu) : IntCpu :=
  let s := { s with ime := false }
  let s := { s with sp := (s.sp + 65534) % 65536 }
  let s := s.write_word s.sp ((s.pc + 1) % 65536)
  { s with pc := 0x50 }

/-- Rust `CPU::rst58` (Serial vector). -/
def IntCpu.rst58 (s : IntCpu) : IntCpu :=
  let s := { s with ime := false }
  let s := { s with sp := (s.sp + 65534) % 65536 }
  let s := s.write_word s.sp ((s.pc + 1) % 65536)
  { s with pc := 0x58 }

/-- Rust `CPU::rst60` (Joypad vector). -/
def IntCpu.rst60 (s : IntCpu) : IntCpu :=
  let s := { s with ime := false }
  let s := { s with sp := (s.sp + 65534) % 65536 }
  let s := s.write_word s.sp ((s.pc + 1) % 65536)
  { s with pc := 0x60 }

/-- Rust `CPU::process_interrupts` (`src/system/cpu.rs:1630`): note the guard
tests `IE != 0 && IF != 0` (not `IE & IF != 0`), each serviced bit is
cleared from IF before the `rst` call, and the last branch tests
`fired & 0x0F` (dead code: bits 0-3 were already handled, so the Joypad
bit 0x10 never dispatches and the `else` arm re-asserts `ime = true`). -/
def IntCpu.process_interrupts (s : IntCpu) : IntCpu :=
  if s.ime ∧ s.interrupt_enable ≠ 0 ∧ s.interrupt_flag ≠ 0 then
    let fired := s.interrupt_enable &&& s.interrupt_flag
    if fired &&& 0x01 ≠ 0 then ({ s with interrupt_flag := s.interrupt_flag &&& 0xFE }).rst40
    else if fired &&& 0x02 ≠ 0 then ({ s with interrupt_flag := s.interrupt_flag &&& 0xFD }).rst48
    else if fired &&& 0x04 ≠ 0 then ({ s with interrupt_flag := s.interrupt_flag &&& 0xFB }).rst50
    else if fired &&& 0x08 ≠ 0 then ({ s with interrupt_flag := s.interrupt_flag &&& 0xF7 }).rst58
    else if fired &&& 0x0F ≠ 0 then ({ s with interrupt_flag := s.interrupt_flag &&& 0xEF }).rst60
    else { s with ime := true }
  else s

/-- State fragment for `Instructions::EI()` in `decode_instruction`. -/
structure EiCpu where
  ime : Bool
  is_halted : Bool
  pc : Nat
  deriving DecidableEq, Repr

/-- Rust `decode_instruction(Instructions::EI())` (`src/system/cpu.rs:1816`),
composed with the caller's `self.pc = next`: when halted the decoder
short-circuits to `(pc, 4)`; otherwise `self.ime = true` and
`(pc.wrapping_add(1), 4)`.  Returns the updated state and the cycle count.
`ime` is set during the EI instruction itself; no delay latch is involved
(the `interrupt_delay` field of `Interrupt` is never read or written
anywhere in the sources). -/
def EiCpu.stepEI (s : EiCpu) : EiCpu × Nat :=
  if s.is_halted then (s, 4)
  else ({ s with ime := true, pc := (s.pc + 1) % 65536 }, 4)

/-- The `ArithmeticTarget::A` body of `Instructions::SBC`
(`src/system/cpu.rs:2965`), with the source operand's value passed in.
Mirrors the source exactly, including its quirks: the subtrahend chain uses
the *whole* flags byte `u8::from(self.regs.f)` (not the carry bit), the
flags byte is re-read after `carry`/`subtract` have been updated, the
half-carry compares `a & 0xF` against itself, and the final assignment
subtracts the `h` register instead of the source operand (u8 ops wrap per
release mode). -/
def sbcTargetA (regs : Registers) (source_value : Nat) : Registers :=
  let difference : Int :=
    (regs.a : Int) - (source_value : Int) - (flagsToU8 regs.f : Int)
  let f := { regs.f with carry := difference < 0 }
  let f := { f with subtract := true }
  let f := { f with half_carry :=
    ((regs.a &&& 0xF : Nat) : Int) - ((regs.a &&& 0xF : Nat) : Int)
      - (flagsToU8 f : Int) < 0 }
  let a := wsub8 (wsub8 regs.a regs.h) (flagsToU8 f)
  let f := { f with zero := a = 0 }
  { regs with a := a, f := f }

/-- Rust `SBC A,B`: `ArithmeticSource::B` reads `self.regs.b`. -/
def sbcAB (regs : Registers) : Registers := sbcTargetA regs regs.b

/-! ## Concrete sample states used to evaluate the code -/

def rtc0 : RealTimeClock := { s := 0, m := 0, h := 0, dl := 0, dh := 0 }

/-- A cartridge with no MBC and empty ROM/RAM (the I/O-register claims never
touch the cartridge). -/
def cart0 : Cartridge :=
  { game_rom := []
    game_ram := []
    ram_enabled := false
    bank_mode := .Rom
    rtc := rtc0
    rom_bank := 0x01
    ram_bank := 0x00
    bank := 0x01
    mbc := .None }

/-- A concrete bus state assembled from the component constructors. -/
def bus0 : MemoryBus :=
  { intref := Interrupt.new
    memory := { wram := fun _ => 0, hram := fun _ => 0, wram_bank := 1, cartridge := cart0 }
    gpu := GPU.new
    keys := Joypad.new
    timer := Timer.new
    apu := APU.new
    serial := Serial.new
    run_bootrom := false
    bootrom := []
    speed := .Regular
    speed_shift := false
    hdma := HDMA.new }

/-- Only a Joypad interrupt pending and enabled, IME set. -/
def c1JoypadState : IntCpu :=
  { ime := true
    interrupt_enable := 0x10
    interrupt_flag := 0x10
    pc := 0x1234
    sp := 0xFFFE
    writes := [] }

/-- Only a VBlank interrupt pending and enabled, IME set. -/
def c1VBlankState : IntCpu :=
  { ime := true
    interrupt_enable := 0x01
    interrupt_flag := 0x01
    pc := 0x1234
    sp := 0xFFFE
    writes := [] }

def c2State : EiCpu := { ime := false, is_halted := false, pc := 0x0100 }

/-- The spec's SBC seed scenario: `A=0x3B, B=0x2A, H=0, CY=1` (Z, N and the
`h` register zero). -/
def c3Regs : Registers :=
  { a := 0x3B, b := 0x2A, c := 0, d := 0, e := 0
    f := { zero := false, subtract := false, half_carry := false, carry := true }
    h := 0, l := 0 }

def regs0 : Registers :=
  { a := 0, b := 0, c := 0, d := 0, e := 0
    f := { zero := false, subtract := false, half_carry := false, carry := false }
    h := 0, l := 0 }

/-- The timer state after the divider phase of `update_timers`, with the
TIMA accumulator already reduced mod the input clock period (the state the
`for _ in 0..rs` loop starts from when the timer is enabled). -/
def Timer.afterDivider (t : Timer) (cycles : Nat) : Timer :=
  { t with
    divider_counter := (divLoop (t.divider_counter + cycles) t.divider_register).1
    divider_register := (divLoop (t.divider_counter + cycles) t.divider_register).2
    clock_counter := (t.clock_counter + cycles) % t.input_clock_speed }

/-- A timer sitting at TIMA = 0xFF. -/
def timerFF : Timer := { Timer.new with tima := 0xFF }

/-- An enabled timer at TIMA = 0xFF (period 1024, accumulator 1024, so 16
more cycles produce exactly one TIMA increment). -/
def timerEn : Timer := { Timer.new with clock_enabled := true, tima := 0xFF }

/-- An MBC2 cartridge with its 512-byte (nibble) RAM enabled. -/
def cartC8 : Cartridge :=
  { game_rom := []
    game_ram := List.replicate 0x200 0
    ram_enabled := true
    bank_mode := .Rom
    rtc := rtc0
    rom_bank := 0x01
    ram_bank := 0x00
    bank := 0x01
    mbc := .MBC2 }

def cartM1 : Cartridge := { cartC8 with mbc := .MBC1 }

def cartM3 : Cartridge := { cartC8 with mbc := .MBC3 }

def cartM5 : Cartridge := { cartC8 with mbc := .MBC5 }

/-- The PPU fields the C5 invariant is about: LY, STAT and LCDC. -/
def GPU.core (g : GPU) : Nat × Stat × Nat := (g.current_line, g.stat, g.lcdc)

/-- The C5 invariant: LY in [0,153], mode in {0,1,2,3}, and with the LCD
disabled (LCDC bit 7 clear) LY and mode pinned to 0. -/
def GpuInv (g : GPU) : Prop :=
  g.current_line ≤ 153 ∧ g.stat.mode ≤ 3 ∧
    (¬ g.lcdcBit 7 → g.current_line = 0 ∧ g.stat.mode = 0)

/-- States of the `GPU` reachable from `GPU::new()` through the operations
the rest of the system performs on it: `update_graphics`, register writes
(through `write_registers`), VRAM writes, and direct OAM stores (the bus's
OAM arm and DMA loop). -/
inductive Reach : GPU → Prop where
  | init : Reach GPU.new
  | update (g : GPU) (cycles : Nat) : Reach g → Reach (g.update_graphics cycles)
  | write (g g' : GPU) (address value : Nat) :
      Reach g → g.write_registers address value = some g' → Reach g'
  | vram (g : GPU) (address value : Nat) : Reach g → Reach (g.write_vram address value)
  | oam (g : GPU) (i value : Nat) : Reach g → Reach { g with oam := upd g.oam i value }

/-! ## Bitwise and register lemmas -/

theorem land_two_pow_sub_one (x m : Nat) : x &&& (2 ^ m - 1) = x % 2 ^ m := by
  apply Nat.eq_of_testBit_eq
  intro i
  rw [Nat.testBit_and, Nat.testBit_two_pow_sub_one, Nat.testBit_mod_two_pow, Bool.and_comm]

theorem land255 (x : Nat) : x &&& 255 = x % 256 := by
  have h := land_two_pow_sub_one x 8
  norm_num at h
  exact h

theorem land15 (x : Nat) : x &&& 15 = x % 16 := by
  have h := land_two_pow_sub_one x 4
  norm_num at h
  exact h

theorem land1 (x : Nat) : x &&& 1 = x % 2 := Nat.and_one_is_mod x

/-- Masking: `x &&& ((2^m - 1) <<< k)` extracts the field of `m` bits starting at bit `k`. -/
theorem land_mask_shift (x k m : Nat) :
    x &&& ((2 ^ m - 1) <<< k) = ((x >>> k) % 2 ^ m) <<< k := by
  apply Nat.eq_of_testBit_eq
  intro i
  rw [Nat.testBit_and, Nat.testBit_shiftLeft, Nat.testBit_shiftLeft,
    Nat.testBit_two_pow_sub_one, Nat.testBit_mod_two_pow, Nat.testBit_shiftRight]
  rcases Nat.lt_or_ge i k with h | h
  · simp [Nat.not_le.mpr h]
  · simp only [Nat.le_of_lt, h, decide_eq_true_eq, Bool.true_and, decide_True]
    have : k + (i - k) = i := by omega
    rw [this, Bool.and_comm]

theorem shiftLeft_or_add {a b k : Nat} (hb : b < 2 ^ k) :
    (a <<< k) ||| b = a * 2 ^ k + b := by
  apply Nat.eq_of_testBit_eq
  intro i
  rw [Nat.testBit_or, Nat.testBit_shiftLeft, Nat.mul_comm,
    Nat.testBit_mul_pow_two_add a hb i]
  rcases Nat.lt_or_ge i k with h | h
  · simp [Nat.not_le.mpr h, h]
  · have hbi : b.testBit i = false := by
      apply Nat.testBit_eq_false_of_lt
      exact lt_of_lt_of_le hb (Nat.pow_le_pow_right (by norm_num) h)
    simp [h, Nat.not_lt.mpr h, hbi]

theorem shiftRight_div (x k : Nat) : x >>> k = x / 2 ^ k :=
  Nat.shiftRight_eq_div_pow x k

theorem shiftLeft_mul (x k : Nat) : x <<< k = x * 2 ^ k :=
  Nat.shiftLeft_eq x k

theorem or_add_mul256 (a b : Nat) (hb : b < 256) : a * 256 ||| b = a * 256 + b := by
  have h := shiftLeft_or_add (a := a) (k := 8) (b := b) (by omega)
  rw [shiftLeft_mul] at h
  norm_num at h ⊢
  exact h

theorem land_ff00 (v : Nat) : v &&& 0xFF00 = (v / 256 % 256) * 256 := by
  have h := land_mask_shift v 8 8
  simp only [shiftRight_div, shiftLeft_mul] at h
  norm_num at h
  exact h

theorem land_f0 (v : Nat) : v &&& 0xF0 = (v / 16 % 16) * 16 := by
  have h := land_mask_shift v 4 4
  simp only [shiftRight_div, shiftLeft_mul] at h
  norm_num at h
  exact h

theorem land_fff0 (v : Nat) : v &&& 0xFFF0 = (v / 16 % 4096) * 16 := by
  have h := land_mask_shift v 4 12
  simp only [shiftRight_div, shiftLeft_mul] at h
  norm_num at h
  exact h

/-- High/low byte recomposition used by the paired 16-bit setters/getters. -/
theorem hiLo (v : Nat) (hv : v < 65536) :
    (((v &&& 0xFF00) >>> 8) <<< 8) ||| (v &&& 0xFF) = v := by
  rw [land_ff00, land255]
  simp only [shiftRight_div, shiftLeft_mul]
  norm_num
  rw [or_add_mul256 _ _ (by omega)]
  omega

theorem flags_roundtrip (y : Nat) :
    flagsToU8 (flagsFromU8 y) = y &&& 0xF0 := by
  unfold flagsToU8 flagsFromU8
  simp only [ne_eq, land1, shiftRight_div, ite_not]
  rw [land_f0]
  norm_num
  split_ifs <;> simp <;> omega

theorem get_set_bc (r : Registers) (v : Nat) (hv : v < 65536) :
    (r.set_bc v).get_bc = v := by
  unfold Registers.set_bc Registers.get_bc
  exact hiLo v hv

theorem get_set_de (r : Registers) (v : Nat) (hv : v < 65536) :
    (r.set_de v).get_de = v := by
  unfold Registers.set_de Registers.get_de
  exact hiLo v hv

theorem get_set_hl (r : Registers) (v : Nat) (hv : v < 65536) :
    (r.set_hl v).get_hl = v := by
  unfold Registers.set_hl Registers.get_hl
  exact hiLo v hv

theorem get_set_af (r : Registers) (v : Nat) (hv : v < 65536) :
    (r.set_af v).get_af = v &&& 0xFFF0 := by
  unfold Registers.set_af Registers.get_af
  simp only [flags_roundtrip]
  rw [land_ff00, land_fff0, shiftRight_div, shiftLeft_mul]
  norm_num
  have hmask : v % 256 &&& 240 = v % 256 / 16 % 16 * 16 := land_f0 (v % 256)
  rw [land255, hmask, or_add_mul256 _ _ (by omega)]
  omega

/-! ## Claim theorems -/

/-- C1: the claim says a pending, enabled interrupt with IME set clears IME,
clears the lowest set bit of IF, pushes the *unmodified* PC, and vectors to
`0x40 | (n << 3)`, for every kind including Joypad.  The code violates this:
with only the Joypad bit pending (`IE = IF = 0x10`), `process_interrupts`
services nothing at all (the dead `fired & 0x0F` test), and for VBlank the
word pushed is `pc + 1`, not `pc` (and both push bytes go to the same address
`sp`, per the old `write_word`). -/
theorem C1_interrupt_dispatch_eval :
    IntCpu.process_interrupts c1JoypadState = c1JoypadState ∧
    (IntCpu.process_interrupts c1VBlankState).pc = 0x40 ∧
    (IntCpu.process_interrupts c1VBlankState).ime = false ∧
    (IntCpu.process_interrupts c1VBlankState).sp = 0xFFFC ∧
    (IntCpu.process_interrupts c1VBlankState).interrupt_flag = 0 ∧
    (IntCpu.process_interrupts c1VBlankState).writes
      = [(0xFFFC, 0x12), (0xFFFC, 0x35)] := by
  refine ⟨?_, ?_, ?_, ?_, ?_, ?_⟩ <;> decide

/-- C2: the claim says EI only sets the delay latch and IME becomes true one
instruction later.  Evaluating the code: immediately after EI alone, IME is
already true (and no latch exists on this path). -/
theorem C2_ei_immediate_eval :
    (EiCpu.stepEI c2State).1.ime = true ∧
    (EiCpu.stepEI c2State).1.pc = 0x0101 ∧
    (EiCpu.stepEI c2State).2 = 4 := by
  refine ⟨?_, ?_, ?_⟩ <;> decide

/-- C3: the claim (spec seed scenario 2) expects `A=0x3B, B=0x2A, H=0, CY=1`
after `SBC A,B` to give `A=0x10, Z=0, N=1, H=0, C=0`.  Evaluating the code
(with `Z=N=0` and the `h` register 0): `A=0xDB` and `H=1` instead. -/
theorem C3_sbc_eval :
    (sbcAB c3Regs).a = 0xDB ∧
    (sbcAB c3Regs).f.zero = false ∧
    (sbcAB c3Regs).f.subtract = true ∧
    (sbcAB c3Regs).f.half_carry = true ∧
    (sbcAB c3Regs).f.carry = false ∧
    (sbcAB c3Regs).a ≠ 0x10 := by
  refine ⟨?_, ?_, ?_, ?_, ?_, ?_⟩ <;> decide

/-- C4: the claim says `read_byte` is total (never panics) over
0x0000-0xFFFF and unimplemented I/O reads give 0x00, naming 0xFF46 and
0xFF53.  Evaluating the code: reading 0xFF46 reaches the `panic!` arm of
`GPU::read_registers`, and reading 0xFF53 reaches `unreachable!()` in
`HDMA::read_hdma` (its match lists `0xFF43` where `0xFF53` was meant); an
actually unimplemented register such as 0xFF03 does read as 0x00. -/
theorem C4_read_byte_panics_eval :
    MemoryBus.read_byte bus0 0xFF46 = none ∧
    MemoryBus.read_byte bus0 0xFF53 = none ∧
    MemoryBus.read_byte bus0 0xFF03 = some 0x00 := by
  refine ⟨?_, ?_, ?_⟩ <;> rfl

/-- C9: paired 16-bit register round-trips: `set_bc/get_bc` (likewise DE,
HL) return the value written; `set_af/get_af` returns `v & 0xFFF0`; and a
byte's high nibble survives the `FlagsRegister` round-trip. -/
theorem C9_register_roundtrips :
    (∀ (r : Registers) (v : Nat), v < 65536 →
      (r.set_bc v).get_bc = v ∧
      (r.set_de v).get_de = v ∧
      (r.set_hl v).get_hl = v ∧
      (r.set_af v).get_af = v &&& 0xFFF0) ∧
    (∀ b : Nat, b < 256 →
      flagsToU8 (flagsFromU8 (b &&& 0xF0)) = b &&& 0xF0) := by
  constructor
  · intro r v hv
    exact ⟨get_set_bc r v hv, get_set_de r v hv, get_set_hl r v hv, get_set_af r v hv⟩
  · intro b _
    rw [flags_roundtrip]
    apply Nat.eq_of_testBit_eq
    intro i
    simp [Nat.testBit_and, Bool.and_assoc]

theorem C9_register_roundtrips_witness :
    (((regs0.set_bc 0xABCD).get_bc = 0xABCD ∧
      (regs0.set_de 0xABCD).get_de = 0xABCD ∧
      (regs0.set_hl 0xABCD).get_hl = 0xABCD ∧
      (regs0.set_af 0xABCD).get_af = 0xABCD &&& 0xFFF0) ∧
     flagsToU8 (flagsFromU8 (0xB5 &&& 0xF0)) = 0xB5 &&& 0xF0) :=
  ⟨C9_register_roundtrips.1 regs0 0xABCD (by norm_num),
   C9_register_roundtrips.2 0xB5 (by norm_num)⟩

/-- C10: `write_word(a, w)` stores the low byte `w % 256` at `a` and the
high byte `w / 256` at `a + 1`, as exactly the two corresponding
`write_byte` calls in that order. -/
theorem C10_write_word_little_endian :
    ∀ (s : MemoryBus) (address word : Nat), address ≤ 0xFFFE → word ≤ 0xFFFF →
      s.write_word address word =
        (s.write_byte address (word % 256)).bind
          fun s' => s'.write_byte (address + 1) (word / 256) := by
  intro s a w _ hw
  unfold MemoryBus.write_word
  rw [land255, shiftRight_div]
  norm_num
  have h2 : w / 256 % 256 = w / 256 := by omega
  simp only [h2]

theorem C10_write_word_little_endian_witness :
    bus0.write_word 0xC000 0x1234 =
      (bus0.write_byte 0xC000 (0x1234 % 256)).bind
        fun s' => s'.write_byte (0xC000 + 1) (0x1234 / 256) :=
  C10_write_word_little_endian bus0 0xC000 0x1234 (by norm_num) (by norm_num)

/-! ## Timer lemmas (C6, C7) -/

/-- Closed form of the divider `while` loop: starting from counter `d` and
register `r < 256`, the register advances by `(d - 1) / 256` (zero when
`d ≤ 256`: the loop condition is the strict `d > 256`). -/
theorem divLoop_eq : ∀ d r, r < 256 →
    divLoop d r = (d - 256 * ((d - 1) / 256), (r + (d - 1) / 256) % 256) := by
  intro d
  induction d using Nat.strong_induction_on with
  | _ d ih =>
    intro r hr
    rw [divLoop]
    split
    · next h =>
      rw [ih (d - 256) (by omega) ((r + 1) % 256) (by omega)]
      simp only [Prod.mk.injEq]
      constructor <;> omega
    · next h =>
      simp only [Prod.mk.injEq]
      constructor <;> omega

theorem timaStep_divider (t : Timer) :
    (timaStep t).divider_register = t.divider_register := by
  unfold timaStep
  by_cases h0 : (t.tima + 1) % 256 = 0 <;> simp [h0]

theorem timaStep_iterate_divider (n : Nat) (t : Timer) :
    (timaStep^[n] t).divider_register = t.divider_register := by
  induction n generalizing t with
  | zero => rfl
  | succ n ih =>
    rw [Function.iterate_succ_apply, ih, timaStep_divider]

theorem or4_and4 (x : Nat) : (x ||| 4) &&& 4 = 4 := by
  apply Nat.eq_of_testBit_eq
  intro i
  rw [Nat.testBit_and, Nat.testBit_or]
  have h4 : (4 : Nat) = 2 ^ 2 := by norm_num
  rw [h4, Nat.testBit_two_pow]
  by_cases h : 2 = i <;> simp [h]

theorem timaStep_and4 (t : Timer) (h : t.intf &&& 4 = 4) :
    (timaStep t).intf &&& 4 = 4 := by
  unfold timaStep
  by_cases h0 : (t.tima + 1) % 256 = 0
  · simp only [h0, if_true, interruptMask]
    exact or4_and4 t.intf
  · simp only [h0, if_false]
    exact h

theorem timaStep_iterate_and4 (n : Nat) (t : Timer) (h : t.intf &&& 4 = 4) :
    (timaStep^[n] t).intf &&& 4 = 4 := by
  induction n generalizing t with
  | zero => exact h
  | succ n ih =>
    rw [Function.iterate_succ_apply]
    exact ih _ (timaStep_and4 t h)

/-- C6: TIMA overflow handling is atomic within one `update_timers` call:
the increment step that wraps 0xFF to 0x00 also reloads TIMA from TMA and
ORs the Timer bit into IF; a non-overflowing increment leaves IF alone;
`update_timers` (timer enabled) is exactly `rs` such steps applied after
the divider phase in the same call; and whenever some step in the call sees
TIMA at 0xFF, the state returned by that same call has IF bit 2 set. -/
theorem C6_tima_overflow_same_call :
    (∀ t : Timer, t.tima = 0xFF →
      (timaStep t).tima = t.tma ∧ (timaStep t).intf = t.intf ||| 0x04) ∧
    (∀ t : Timer, t.tima < 0xFF →
      (timaStep t).tima = t.tima + 1 ∧ (timaStep t).intf = t.intf) ∧
    (∀ (t : Timer) (cycles : Nat), t.clock_enabled = true →
      t.update_timers cycles =
        timaStep^[(t.clock_counter + cycles) / t.input_clock_speed]
          (t.afterDivider cycles)) ∧
    (∀ (t : Timer) (cycles k : Nat), t.clock_enabled = true →
      k < (t.clock_counter + cycles) / t.input_clock_speed →
      (timaStep^[k] (t.afterDivider cycles)).tima = 0xFF →
      (t.update_timers cycles).intf &&& 0x04 = 0x04) := by
  have hstep1 : ∀ t : Timer, t.tima = 0xFF →
      (timaStep t).tima = t.tma ∧ (timaStep t).intf = t.intf ||| 0x04 := by
    intro t h
    simp [timaStep, interruptMask, h]
  have hstep2 : ∀ t : Timer, t.tima < 0xFF →
      (timaStep t).tima = t.tima + 1 ∧ (timaStep t).intf = t.intf := by
    intro t h
    have h2 : (t.tima + 1) % 256 = t.tima + 1 := by omega
    simp [timaStep, h2]
  have hcall : ∀ (t : Timer) (cycles : Nat), t.clock_enabled = true →
      t.update_timers cycles =
        timaStep^[(t.clock_counter + cycles) / t.input_clock_speed]
          (t.afterDivider cycles) := by
    intro t cycles h
    simp [Timer.update_timers, Timer.afterDivider, h]
  refine ⟨hstep1, hstep2, hcall, ?_⟩
  intro t cycles k h hk hff
  rw [hcall t cycles h]
  have hsplit : (t.clock_counter + cycles) / t.input_clock_speed
      = ((t.clock_counter + cycles) / t.input_clock_speed - (k + 1)) + (k + 1) := by
    omega
  rw [hsplit, Function.iterate_add_apply]
  apply timaStep_iterate_and4
  rw [Function.iterate_succ_apply']
  have := hstep1 (timaStep^[k] (t.afterDivider cycles)) hff
  rw [this.2]
  exact or4_and4 _

theorem C6_tima_overflow_same_call_witness :
    ((timaStep timerFF).tima = timerFF.tma ∧
      (timaStep timerFF).intf = timerFF.intf ||| 0x04) ∧
    ((timaStep Timer.new).tima = Timer.new.tima + 1 ∧
      (timaStep Timer.new).intf = Timer.new.intf) ∧
    (timerEn.update_timers 16 =
      timaStep^[(timerEn.clock_counter + 16) / timerEn.input_clock_speed]
        (timerEn.afterDivider 16)) ∧
    (timerEn.update_timers 16).intf &&& 0x04 = 0x04 :=
  ⟨C6_tima_overflow_same_call.1 timerFF (by decide),
   C6_tima_overflow_same_call.2.1 Timer.new (by decide),
   C6_tima_overflow_same_call.2.2.1 timerEn 16 (by decide),
   C6_tima_overflow_same_call.2.2.2 timerEn 16 0 (by decide) (by decide) (by decide)⟩

/-- C7 (amended): the divider loop condition is strictly `> 256`, so DIV
advances by `⌈(a+c)/256⌉ - 1 = (a+c-1)/256` per call (not `⌊(a+c)/256⌋`);
any write to 0xFF04 still zeroes DIV regardless of the value. -/
theorem C7_div_rate_amended :
    (∀ (t : Timer) (cycles : Nat), t.divider_register < 256 →
      (t.update_timers cycles).divider_register =
        (t.divider_register + (t.divider_counter + cycles - 1) / 256) % 256) ∧
    (∀ (s : MemoryBus) (value : Nat),
      ∃ s', s.write_byte 0xFF04 value = some s' ∧
        s'.timer.divider_register = 0) := by
  constructor
  · intro t cycles hr
    cases ht : t.clock_enabled
    · simp [Timer.update_timers, ht, divLoop_eq _ _ hr]
    · simp [Timer.update_timers, ht, timaStep_iterate_divider, divLoop_eq _ _ hr]
  · intro s value
    refine ⟨{ s with timer := { s.timer with divider_register := 0 } }, ?_, rfl⟩
    unfold MemoryBus.write_byte
    norm_num

/-- C7, the claim as stated is false: from a fresh timer (divider
accumulator 0), 256 cycles advance DIV by 0, not by `⌊256/256⌋ = 1`. -/
theorem C7_div_rate_counterexample :
    ¬ ((Timer.new.update_timers 256).divider_register =
        (Timer.new.divider_register + (Timer.new.divider_counter + 256) / 256) % 256) := by
  have h : (Timer.new.update_timers 256).divider_register = 0 := by
    unfold Timer.update_timers
    rw [divLoop_eq _ _ (by decide : Timer.new.divider_register < 256)]
    norm_num [Timer.new]
  rw [h]
  norm_num [Timer.new]

theorem C7_div_rate_amended_witness :
    ((Timer.new.update_timers 256).divider_register =
      (Timer.new.divider_register + (Timer.new.divider_counter + 256 - 1) / 256) % 256) ∧
    (∃ s', bus0.write_byte 0xFF04 0xAB = some s' ∧
      s'.timer.divider_register = 0) :=
  ⟨C7_div_rate_amended.1 Timer.new 256 (by decide),
   C7_div_rate_amended.2 bus0 0xAB⟩

/-! ## Cartridge RAM round-trips (C8) -/

theorem mbc1_roundtrip (c : Cartridge) (A v : Nat)
    (hm : c.mbc = .MBC1) (hre : c.ram_enabled = true)
    (hA1 : 0xA000 ≤ A) (hA2 : A ≤ 0xBFFF)
    (hi : c.ram_bank_fn * 0x2000 + A - 0xA000 < c.game_ram.length) :
    ∃ c', c.write_byte A v = some c' ∧ c'.read_byte A = some v := by
  have hlen : c.game_ram.length ≠ 0 := by omega
  have h3 : ¬ (A ≤ 0x3FFF) := by omega
  have h47 : ¬ (0x4000 ≤ A ∧ A ≤ 0x7FFF) := by omega
  refine ⟨{ c with game_ram := c.game_ram.set (c.ram_bank_fn * 0x2000 + A - 0xA000) v },
    ?_, ?_⟩
  · simp [Cartridge.write_byte, hm, Cartridge.write_byte_mbc1, hA1, hA2, hre,
      hlen, vecSet, hi]
  · have hfn : Cartridge.ram_bank_fn { c with game_ram := c.game_ram.set (c.ram_bank_fn * 0x2000 + A - 0xA000) v } = c.ram_bank_fn := rfl
    simp [Cartridge.read_byte, hm, Cartridge.read_byte_mbc1, h3, h47, hA1, hA2,
      hre, hfn, vecGet]
    exact List.getElem?_set_eq_of_lt v (by simpa using hi)

theorem mbc3_roundtrip (c : Cartridge) (A v : Nat)
    (hm : c.mbc = .MBC3) (hre : c.ram_enabled = true) (hb : c.ram_bank ≤ 0x03)
    (hA1 : 0xA000 ≤ A) (hA2 : A ≤ 0xBFFF)
    (hi : c.ram_bank * 0x2000 + A - 0xA000 < c.game_ram.length) :
    ∃ c', c.write_byte A v = some c' ∧ c'.read_byte A = some v := by
  have h3 : ¬ (A ≤ 0x3FFF) := by omega
  have h47 : ¬ (0x4000 ≤ A ∧ A ≤ 0x7FFF) := by omega
  refine ⟨{ c with game_ram := c.game_ram.set (c.ram_bank * 0x2000 + A - 0xA000) v },
    ?_, ?_⟩
  · simp [Cartridge.write_byte, hm, Cartridge.write_byte_mbc3, hA1, hA2, hre,
      hb, vecSet, hi]
  · simp [Cartridge.read_byte, hm, Cartridge.read_byte_mbc3, h3, h47, hA1, hA2,
      hre, hb, vecGet]
    exact List.getElem?_set_eq_of_lt v (by simpa using hi)

theorem mbc5_roundtrip (c : Cartridge) (A v : Nat)
    (hm : c.mbc = .MBC5) (hre : c.ram_enabled = true)
    (hA1 : 0xA000 ≤ A) (hA2 : A ≤ 0xBFFF)
    (hi : c.ram_bank * 0x2000 + A - 0xA000 < c.game_ram.length) :
    ∃ c', c.write_byte A v = some c' ∧ c'.read_byte A = some v := by
  have h3 : ¬ (A ≤ 0x3FFF) := by omega
  have h47 : ¬ (0x4000 ≤ A ∧ A ≤ 0x7FFF) := by omega
  refine ⟨{ c with game_ram := c.game_ram.set (c.ram_bank * 0x2000 + A - 0xA000) v },
    ?_, ?_⟩
  · simp [Cartridge.write_byte, hm, Cartridge.write_byte_mbc5, hA1, hA2, hre,
      vecSet, hi]
  · simp [Cartridge.read_byte, hm, Cartridge.read_byte_mbc5, h3, h47, hA1, hA2,
      hre, vecGet]
    exact List.getElem?_set_eq_of_lt v (by simpa using hi)

theorem mbc2_roundtrip (c : Cartridge) (A v : Nat)
    (hm : c.mbc = .MBC2) (hre : c.ram_enabled = true)
    (hA1 : 0xA000 ≤ A) (hA2 : A ≤ 0xA1FF)
    (hi : A - 0xA000 < c.game_ram.length) :
    ∃ c', c.write_byte A v = some c' ∧ c'.read_byte A = some (v &&& 0x0F) := by
  have h3 : ¬ (A ≤ 0x3FFF) := by omega
  have h47 : ¬ (0x4000 ≤ A ∧ A ≤ 0x7FFF) := by omega
  refine ⟨{ c with game_ram := c.game_ram.set (A - 0xA000) (v &&& 0x0F) }, ?_, ?_⟩
  · simp [Cartridge.write_byte, hm, Cartridge.write_byte_mbc2, hA1, hA2, hre,
      vecSet, hi]
  · simp [Cartridge.read_byte, hm, Cartridge.read_byte_mbc2, h3, h47, hA1, hA2,
      hre, vecGet]
    exact List.getElem?_set_eq_of_lt (v &&& 0x0F) (by simpa using hi)

/-- C8 (amended): for MBC1, MBC3 (with a RAM bank, not an RTC register,
selected) and MBC5, writing `v` to an enabled, in-range external-RAM address
in [0xA000, 0xBFFF] and reading it back returns exactly `v`; for MBC2
(RAM at [0xA000, 0xA1FF]) the read-back is `v & 0x0F`, because
`write_byte_mbc2` masks every written value to its low nibble. -/
theorem C8_ram_roundtrip_amended :
    (∀ (c : Cartridge) (A v : Nat), c.mbc = .MBC1 → c.ram_enabled = true →
      0xA000 ≤ A → A ≤ 0xBFFF →
      c.ram_bank_fn * 0x2000 + A - 0xA000 < c.game_ram.length →
      ∃ c', c.write_byte A v = some c' ∧ c'.read_byte A = some v) ∧
    (∀ (c : Cartridge) (A v : Nat), c.mbc = .MBC3 → c.ram_enabled = true →
      c.ram_bank ≤ 0x03 → 0xA000 ≤ A → A ≤ 0xBFFF →
      c.ram_bank * 0x2000 + A - 0xA000 < c.game_ram.length →
      ∃ c', c.write_byte A v = some c' ∧ c'.read_byte A = some v) ∧
    (∀ (c : Cartridge) (A v : Nat), c.mbc = .MBC5 → c.ram_enabled = true →
      0xA000 ≤ A → A ≤ 0xBFFF →
      c.ram_bank * 0x2000 + A - 0xA000 < c.game_ram.length →
      ∃ c', c.write_byte A v = some c' ∧ c'.read_byte A = some v) ∧
    (∀ (c : Cartridge) (A v : Nat), c.mbc = .MBC2 → c.ram_enabled = true →
      0xA000 ≤ A → A ≤ 0xA1FF → A - 0xA000 < c.game_ram.length →
      ∃ c', c.write_byte A v = some c' ∧ c'.read_byte A = some (v &&& 0x0F)) :=
  ⟨fun c A v hm hre h1 h2 hi => mbc1_roundtrip c A v hm hre h1 h2 hi,
   fun c A v hm hre hb h1 h2 hi => mbc3_roundtrip c A v hm hre hb h1 h2 hi,
   fun c A v hm hre h1 h2 hi => mbc5_roundtrip c A v hm hre h1 h2 hi,
   fun c A v hm hre h1 h2 hi => mbc2_roundtrip c A v hm hre h1 h2 hi⟩

/-- C8, the claim as stated is false: on MBC2, writing 0xFF to 0xA000 with
RAM enabled reads back 0x0F, not 0xFF. -/
theorem C8_ram_roundtrip_counterexample :
    ((cartC8.write_byte 0xA000 0xFF).bind fun c' => c'.read_byte 0xA000)
      = some 0x0F ∧ (0x0F : Nat) ≠ 0xFF := by
  refine ⟨?_, by decide⟩
  rfl

/-! ## PPU invariants (C5) -/

theorem foldl_preserve {α β : Type _} (P : α → Prop) (f : α → β → α)
    (hf : ∀ a b, P a → P (f a b)) :
    ∀ (l : List β) (a : α), P a → P (l.foldl f a)
  | [], _, ha => ha
  | b :: l, a, ha => foldl_preserve P f hf l (f a b) (hf a b ha)

theorem core_ite {c : Prop} [Decidable c] {a b : GPU} {x : Nat × Stat × Nat}
    (ha : a.core = x) (hb : b.core = x) : (if c then a else b).core = x := by
  split
  · exact ha
  · exact hb

theorem renderTilePixel_core (g : GPU) (uw : Bool) (td yp tr wx p : Nat) :
    (g.renderTilePixel uw td yp tr wx p).core = g.core :=
  core_ite rfl rfl

theorem render_tiles_core (g : GPU) : g.render_tiles.core = g.core := by
  unfold GPU.render_tiles
  apply foldl_preserve (fun x => GPU.core x = g.core)
  · intro a b ha
    rw [renderTilePixel_core, ha]
  · rfl

theorem renderSpritePixel_core (g : GPU) (x_pos : Nat) (attrs : Attributes)
    (td : Nat × Nat) (pixel : Nat) :
    (g.renderSpritePixel x_pos attrs td pixel).core = g.core :=
  core_ite rfl (core_ite rfl (core_ite rfl (core_ite rfl rfl)))

theorem renderSprite_core (g : GPU) (sp : Sprite) :
    (g.renderSprite sp).core = g.core := by
  refine core_ite rfl (core_ite rfl ?_)
  apply foldl_preserve (fun x => GPU.core x = g.core)
  · intro a b ha
    rw [renderSpritePixel_core, ha]
  · rfl

theorem render_sprites_core (g : GPU) : g.render_sprites.core = g.core := by
  unfold GPU.render_sprites
  apply foldl_preserve (fun x => GPU.core x = g.core)
  · intro a b ha
    rw [renderSprite_core, ha]
  · rfl

theorem draw_scanline_core (g : GPU) : g.draw_scanline.core = g.core := by
  unfold GPU.draw_scanline
  split
  · exact core_ite (by rw [render_sprites_core, render_tiles_core]) (render_tiles_core g)
  · exact core_ite (render_sprites_core g) rfl

theorem core_fields {g h : GPU} (hc : g.core = h.core) :
    g.current_line = h.current_line ∧ g.stat = h.stat ∧ g.lcdc = h.lcdc := by
  unfold GPU.core at hc
  simp only [Prod.mk.injEq] at hc
  exact hc

theorem draw_scanline_current_line (g : GPU) :
    g.draw_scanline.current_line = g.current_line :=
  (core_fields (draw_scanline_core g)).1

theorem draw_scanline_stat (g : GPU) :
    g.draw_scanline.stat = g.stat :=
  (core_fields (draw_scanline_core g)).2.1

theorem draw_scanline_lcdc (g : GPU) :
    g.draw_scanline.lcdc = g.lcdc :=
  (core_fields (draw_scanline_core g)).2.2

theorem mod154_le (n : Nat) : (n + 1) % 154 ≤ 153 :=
  Nat.lt_succ_iff.mp (Nat.mod_lt _ (by norm_num))

theorem iteGPU (d : Nat) {c : Prop} [Decidable c] {a b : GPU}
    (ha : a.current_line ≤ 153 ∧ a.stat.mode ≤ 3 ∧ a.lcdc = d)
    (hb : b.current_line ≤ 153 ∧ b.stat.mode ≤ 3 ∧ b.lcdc = d) :
    (if c then a else b).current_line ≤ 153 ∧
      (if c then a else b).stat.mode ≤ 3 ∧ (if c then a else b).lcdc = d := by
  split
  · exact ha
  · exact hb

theorem iteGPUstat (st : Stat) (d : Nat) {c : Prop} [Decidable c] {a b : GPU}
    (ha : a.current_line ≤ 153 ∧ a.stat = st ∧ a.lcdc = d)
    (hb : b.current_line ≤ 153 ∧ b.stat = st ∧ b.lcdc = d) :
    (if c then a else b).current_line ≤ 153 ∧
      (if c then a else b).stat = st ∧ (if c then a else b).lcdc = d := by
  split
  · exact ha
  · exact hb

theorem drawGPU (d : Nat) {x : GPU}
    (h : x.current_line ≤ 153 ∧ x.stat.mode ≤ 3 ∧ x.lcdc = d) :
    x.draw_scanline.current_line ≤ 153 ∧
      x.draw_scanline.stat.mode ≤ 3 ∧ x.draw_scanline.lcdc = d := by
  rw [draw_scanline_current_line, draw_scanline_stat, draw_scanline_lcdc]
  exact h

theorem lineAdvance_inv (g : GPU) (cycles c i : Nat) (h1 : g.current_line ≤ 153) :
    (g.lineAdvance cycles c i).current_line ≤ 153 ∧
    (g.lineAdvance cycles c i).stat = g.stat ∧
    (g.lineAdvance cycles c i).lcdc = g.lcdc := by
  refine iteGPUstat g.stat g.lcdc ?_ ?_
  · refine iteGPUstat g.stat g.lcdc ?_ ?_
    · exact ⟨mod154_le _, rfl, rfl⟩
    · exact ⟨mod154_le _, rfl, rfl⟩
  · exact ⟨h1, rfl, rfl⟩

theorem modeDispatch_inv (g : GPU) (h1 : g.current_line ≤ 153) (h2 : g.stat.mode ≤ 3) :
    g.modeDispatch.current_line ≤ 153 ∧
    g.modeDispatch.stat.mode ≤ 3 ∧
    g.modeDispatch.lcdc = g.lcdc := by
  refine iteGPU g.lcdc ?_ ?_
  · refine iteGPU g.lcdc ?_ ?_
    · exact ⟨h1, h2, rfl⟩
    · refine iteGPU g.lcdc ?_ ?_
      · exact ⟨h1, by norm_num [GPU.set_interrupt], rfl⟩
      · exact ⟨h1, by norm_num [GPU.set_interrupt], rfl⟩
  · refine iteGPU g.lcdc ?_ ?_
    · refine iteGPU g.lcdc ?_ ?_
      · exact ⟨h1, h2, rfl⟩
      · refine iteGPU g.lcdc ?_ ?_
        · exact ⟨h1, by norm_num [GPU.set_interrupt], rfl⟩
        · exact ⟨h1, by norm_num [GPU.set_interrupt], rfl⟩
    · refine iteGPU g.lcdc ?_ ?_
      · exact ⟨h1, by norm_num [GPU.set_interrupt], rfl⟩
      · refine iteGPU g.lcdc ?_ ?_
        · exact ⟨h1, h2, rfl⟩
        · refine drawGPU g.lcdc ?_
          refine iteGPU g.lcdc ?_ ?_
          · exact ⟨h1, by norm_num [GPU.set_interrupt], rfl⟩
          · exact ⟨h1, by norm_num [GPU.set_interrupt], rfl⟩

theorem updateStep_inv (g : GPU) (cycles c i : Nat)
    (h1 : g.current_line ≤ 153) (h2 : g.stat.mode ≤ 3) :
    (g.updateStep cycles c i).current_line ≤ 153 ∧
    (g.updateStep cycles c i).stat.mode ≤ 3 ∧
    (g.updateStep cycles c i).lcdc = g.lcdc := by
  obtain ⟨ha1, ha2, ha3⟩ := lineAdvance_inv g cycles c i h1
  have ha2m : (g.lineAdvance cycles c i).stat.mode ≤ 3 := by rw [ha2]; exact h2
  obtain ⟨hb1, hb2, hb3⟩ := modeDispatch_inv (g.lineAdvance cycles c i) ha1 ha2m
  exact ⟨hb1, hb2, by rw [GPU.updateStep, hb3, ha3]⟩

theorem update_graphics_inv (g : GPU) (cycles : Nat) (h : GpuInv g) :
    GpuInv (g.update_graphics cycles) := by
  obtain ⟨h1, h2, h3⟩ := h
  unfold GPU.update_graphics
  by_cases h7 : ({ g with hblank := false } : GPU).lcdcBit 7
  · rw [if_neg (by simpa using h7)]
    by_cases hc : cycles = 0
    · rw [if_pos hc]
      exact ⟨h1, h2, h3⟩
    · rw [if_neg hc]
      have hfold := foldl_preserve
        (fun x : GPU => (x.current_line ≤ 153 ∧ x.stat.mode ≤ 3) ∧ x.lcdc = g.lcdc)
        (fun x i => x.updateStep cycles ((cycles - 1) / 80 + 1) i)
        (fun a b ha => by
          obtain ⟨⟨ha1, ha2⟩, ha3⟩ := ha
          obtain ⟨hb1, hb2, hb3⟩ := updateStep_inv a cycles ((cycles - 1) / 80 + 1) b ha1 ha2
          exact ⟨⟨hb1, hb2⟩, by rw [hb3, ha3]⟩)
        (List.range ((cycles - 1) / 80 + 1))
        { g with hblank := false }
        ⟨⟨h1, h2⟩, rfl⟩
      obtain ⟨⟨hf1, hf2⟩, hf3⟩ := hfold
      refine ⟨hf1, hf2, fun hbit => absurd ?_ hbit⟩
      have : GPU.lcdcBit { g with hblank := false } 7 := h7
      simpa [GPU.lcdcBit, hf3] using this
  · rw [if_pos (by simpa using h7)]
    have h7g : ¬ g.lcdcBit 7 := by simpa [GPU.lcdcBit] using h7
    obtain ⟨hl, hm⟩ := h3 h7g
    exact ⟨by simpa using h1, by simpa using h2, fun _ => ⟨hl, hm⟩⟩

theorem write_registers_inv (g g' : GPU) (address value : Nat)
    (h : GpuInv g) (hw : g.write_registers address value = some g') : GpuInv g' := by
  obtain ⟨h1, h2, h3⟩ := h
  unfold GPU.write_registers at hw
  split at hw
  all_goals try simp only [] at hw
  all_goals try split at hw
  all_goals try simp only [] at hw
  all_goals try split at hw
  all_goals first
    | exact Option.noConfusion hw
    | (injection hw with hw
       subst hw
       first
        | exact ⟨h1, h2, h3⟩
        | exact ⟨Nat.zero_le _, Nat.zero_le _, fun _ => ⟨rfl, rfl⟩⟩
        | exact ⟨Nat.zero_le _, h2, fun hb => ⟨rfl, (h3 hb).2⟩⟩
        | (rename_i hcond
           exact ⟨h1, h2, fun hb => (hcond hb).elim⟩))

theorem write_vram_inv (g : GPU) (address value : Nat) (h : GpuInv g) :
    GpuInv (g.write_vram address value) := h

theorem write_oam_inv (g : GPU) (i value : Nat) (h : GpuInv g) :
    GpuInv { g with oam := upd g.oam i value } := h

theorem reach_inv (g : GPU) (h : Reach g) : GpuInv g := by
  induction h with
  | init => exact ⟨Nat.zero_le _, Nat.zero_le _, fun _ => ⟨rfl, rfl⟩⟩
  | update g cycles _ ih => exact update_graphics_inv g cycles ih
  | write g g' address value _ hw ih => exact write_registers_inv g g' address value ih hw
  | vram g address value _ ih => exact write_vram_inv g address value ih
  | oam g i value _ ih => exact write_oam_inv g i value ih

theorem write_registers_ff40 (g : GPU) (value : Nat) :
    g.write_registers 0xFF40 value =
      (if ¬ (GPU.lcdcBit { g with lcdc := value } 7) then
        some { g with
               lcdc := value, scanline_counter := 0, current_line := 0,
               stat := { g.stat with mode := 0 },
               screen_data := fun _ _ => (0xFF, 0xFF, 0xFF), vblank := true }
       else some { g with lcdc := value }) := rfl

/-- C5: in every reachable PPU state, LY is in [0,153] and the STAT mode
field is in {0,1,2,3} (and while the LCD is disabled they are pinned to 0);
and disabling the LCD by writing an LCDC value with bit 7 clear snaps LY to
0 and mode to 0, clears the whole framebuffer to white (0xFF,0xFF,0xFF),
and sets the `vblank` flag. -/
theorem C5_ppu_invariants :
    (∀ g : GPU, Reach g →
      g.current_line ≤ 153 ∧ g.stat.mode ≤ 3 ∧
        (¬ g.lcdcBit 7 → g.current_line = 0 ∧ g.stat.mode = 0)) ∧
    (∀ (g : GPU) (value : Nat), value &&& 0x80 = 0 →
      ∃ g', g.write_registers 0xFF40 value = some g' ∧
        g'.current_line = 0 ∧ g'.stat.mode = 0 ∧
        (∀ line pixel, g'.screen_data line pixel = (0xFF, 0xFF, 0xFF)) ∧
        g'.vblank = true) := by
  constructor
  · exact fun g h => reach_inv g h
  · intro g value hv
    have hbit : ¬ GPU.lcdcBit { g with lcdc := value } 7 := by
      simp [GPU.lcdcBit]
      exact hv
    have heq : g.write_registers 0xFF40 value =
        some { g with
               lcdc := value, scanline_counter := 0, current_line := 0,
               stat := { g.stat with mode := 0 },
               screen_data := fun _ _ => (0xFF, 0xFF, 0xFF), vblank := true } := by
      rw [write_registers_ff40, if_pos hbit]
    exact ⟨_, heq, rfl, rfl, fun _ _ => rfl, rfl⟩

theorem C5_ppu_invariants_witness :
    (GPU.new.current_line ≤ 153 ∧ GPU.new.stat.mode ≤ 3 ∧
      (¬ GPU.new.lcdcBit 7 → GPU.new.current_line = 0 ∧ GPU.new.stat.mode = 0)) ∧
    (∃ g', GPU.new.write_registers 0xFF40 0x00 = some g' ∧
      g'.current_line = 0 ∧ g'.stat.mode = 0 ∧
      (∀ line pixel, g'.screen_data line pixel = (0xFF, 0xFF, 0xFF)) ∧
      g'.vblank = true) :=
  ⟨C5_ppu_invariants.1 GPU.new Reach.init,
   C5_ppu_invariants.2 GPU.new 0x00 (by decide)⟩

theorem C8_ram_roundtrip_amended_witness :
    (∃ c', cartM1.write_byte 0xA000 0xAB = some c' ∧
      c'.read_byte 0xA000 = some 0xAB) ∧
    (∃ c', cartM3.write_byte 0xA000 0xAB = some c' ∧
      c'.read_byte 0xA000 = some 0xAB) ∧
    (∃ c', cartM5.write_byte 0xA000 0xAB = some c' ∧
      c'.read_byte 0xA000 = some 0xAB) ∧
    (∃ c', cartC8.write_byte 0xA000 0xFF = some c' ∧
      c'.read_byte 0xA000 = some (0xFF &&& 0x0F)) :=
  ⟨C8_ram_roundtrip_amended.1 cartM1 0xA000 0xAB (by decide) (by decide)
      (by decide) (by decide) (by decide),
   C8_ram_roundtrip_amended.2.1 cartM3 0xA000 0xAB (by decide) (by decide)
      (by decide) (by decide) (by decide) (by decide),
   C8_ram_roundtrip_amended.2.2.1 cartM5 0xA000 0xAB (by decide) (by decide)
      (by decide) (by decide) (by decide),
   C8_ram_roundtrip_amended.2.2.2 cartC8 0xA000 0xFF (by decide) (by decide)
      (by decide) (by decide) (by decide)⟩

end SGBC
